import Mathlib

/-!
Verification of the image-scraper automation core (`src/core/downloader.py`,
`src/core/dewatermarker.py`) against its natural-language specification.

The Python code is shallowly embedded as executable Lean functions.  External
effects (the `windscribe` subprocess calls, Playwright browser steps, the file
system) are modelled by oracles: a `World` stream answers each external VPN
command in order, and an `AttemptEnv` record fixes the outcome of every
browser step of one processing attempt.  Every embedded function returns, in
addition to its result, the successor state and a list of observable events
(commands issued, sleeps, resource opens/closes, counter writes), on which the
claims are stated.
-/

namespace Scrape

/-! ## VPNManager (src/core/downloader.py, class VPNManager) -/

/-- `VPNManager.LOCATIONS`: the fixed rotation list. -/
def LOCATIONS : List String := ["US", "CA", "UK", "DE", "FR", "NL", "CH", "SE", "NO", "IT"]

/-- The mutable fields of a `VPNManager` instance (`connected`,
`current_location_index`, `rotation_attempts`). -/
structure VpnState where
  connected : Bool
  current_location_index : Nat
  rotation_attempts : Nat
deriving Repr, DecidableEq

/-- `VPNManager.max_consecutive_failures` (set in `__init__`). -/
def max_consecutive_failures : Nat := 3

/-- Oracle outcomes for one external `windscribe` invocation.  `discOk`:
`windscribe disconnect` returns exit code 0 (an exception behaves like a
nonzero exit code: the method returns `False` without touching state).
`statusR`: `none` means the status command failed or raised, `some b` means it
succeeded and reported connected-state `b`.  `connOk`: `windscribe connect`
returns exit code 0.  `fdiscOk`: the forced `windscribe-cli disconnect`
printed `DISCONNECTED`.  `restartOk`: the service-restart sequence ran
without an exception (its result is ignored by the caller). -/
structure Ext where
  discOk : Bool
  statusR : Option Bool
  connOk : Bool
  fdiscOk : Bool
  restartOk : Bool
deriving Repr, DecidableEq

/-- The external world: answers the n-th external command. -/
abbrev World := Nat → Ext

/-- Observable VPN-level events: which external commands were issued (and with
which explicit location, for connect), and the `time.sleep` calls. -/
inductive VEvent where
  | discCmd
  | statusCmd
  | connCmd (loc : Option String)
  | fdiscCmd
  | restartSvc
  | sleepV (secs : Nat)
deriving Repr, DecidableEq

/-- `VPNManager.disconnect`: runs `windscribe disconnect`; on exit code 0 sets
`self.connected = False` and returns `True`, otherwise returns `False`. -/
def disconnect (w : World) (s : VpnState) (k : Nat) :
    Bool × VpnState × Nat × List VEvent :=
  if (w k).discOk then (true, { s with connected := false }, k + 1, [.discCmd])
  else (false, s, k + 1, [.discCmd])

/-- `VPNManager.verify_connection_status`: runs `windscribe status`; on
success parses the output and updates `self.connected`; on a failed command
returns `False` leaving `self.connected` untouched. -/
def verify_connection_status (w : World) (s : VpnState) (k : Nat) :
    Bool × VpnState × Nat × List VEvent :=
  match (w k).statusR with
  | some true => (true, { s with connected := true }, k + 1, [.statusCmd])
  | some false => (false, { s with connected := false }, k + 1, [.statusCmd])
  | none => (false, s, k + 1, [.statusCmd])

/-- `VPNManager.get_next_location`: returns `LOCATIONS[current_location_index]`
and advances the index modulo the list length.  (`getD` totalizes the Python
list indexing; the invariant `current_location_index < 10` proved below makes
the default irrelevant.) -/
def get_next_location (s : VpnState) : String × VpnState :=
  (LOCATIONS.getD s.current_location_index "",
   { s with current_location_index := (s.current_location_index + 1) % LOCATIONS.length })

/-- `VPNManager._force_disconnect`. -/
def force_disconnect (w : World) (s : VpnState) (k : Nat) :
    Bool × VpnState × Nat × List VEvent :=
  if (w k).fdiscOk then (true, { s with connected := false }, k + 1, [.fdiscCmd])
  else (false, s, k + 1, [.fdiscCmd])

/-- `VPNManager._restart_windscribe_service`: issues the logout / disconnect /
kill / login sequence (modelled as one `restartSvc` event); does not update
`self.connected`; its boolean result is ignored by `rotate_ip`. -/
def restart_service (w : World) (s : VpnState) (k : Nat) :
    Bool × VpnState × Nat × List VEvent :=
  ((w k).restartOk, s, k + 1, [.restartSvc])

/-- `VPNManager.connect(location)`: disconnects first when `self.connected`,
issues the connect command, and on exit code 0 sleeps 3 s and verifies via
`verify_connection_status`; returns `True` only if that verification holds. -/
def connect (w : World) (loc : Option String) (s : VpnState) (k : Nat) :
    Bool × VpnState × Nat × List VEvent :=
  let pre : VpnState × Nat × List VEvent :=
    if s.connected then
      let d := disconnect w s k
      (d.2.1, d.2.2.1, d.2.2.2)
    else (s, k, [])
  if (w pre.2.1).connOk then
    let v := verify_connection_status w pre.1 (pre.2.1 + 1)
    (v.1, v.2.1, v.2.2.1, pre.2.2 ++ [.connCmd loc, .sleepV 3] ++ v.2.2.2)
  else (false, pre.1, pre.2.1 + 1, pre.2.2 ++ [.connCmd loc])

/-- Result of one body iteration of the retry loop in `VPNManager.rotate_ip`:
the iteration either returned `True` out of the method (connect succeeded and
re-verification passed), or the connect call failed, or the connect call
succeeded but the re-verification failed. -/
inductive AttemptRes where
  | success
  | connFailed
  | verifyFailed
deriving Repr, DecidableEq

/-- One body iteration of the `while` loop in `rotate_ip` (lines 184-222):
disconnect if needed (with forced fallback), sleep 3 s, connect to the chosen
location, and re-verify.  On success `rotation_attempts` is reset to 0. -/
def rotate_attempt (w : World) (loc : String) (s : VpnState) (k : Nat) :
    AttemptRes × VpnState × Nat × List VEvent :=
  let c1 : Bool × VpnState × Nat × List VEvent :=
    if s.connected then (true, s, k, [])
    else
      let v := verify_connection_status w s k
      (!v.1, v.2.1, v.2.2.1, v.2.2.2)
  let d1 : VpnState × Nat × List VEvent :=
    if c1.1 then
      let d := disconnect w c1.2.1 c1.2.2.1
      if d.1 then (d.2.1, d.2.2.1, c1.2.2.2 ++ d.2.2.2)
      else
        let f := force_disconnect w d.2.1 d.2.2.1
        (f.2.1, f.2.2.1, c1.2.2.2 ++ d.2.2.2 ++ f.2.2.2)
    else (c1.2.1, c1.2.2.1, c1.2.2.2)
  let c := connect w (some loc) d1.1 d1.2.1
  if c.1 then
    let v := verify_connection_status w c.2.1 c.2.2.1
    if v.1 then
      (.success, { v.2.1 with rotation_attempts := 0 }, v.2.2.1,
       d1.2.2 ++ [.sleepV 3] ++ c.2.2.2 ++ v.2.2.2)
    else (.verifyFailed, v.2.1, v.2.2.1, d1.2.2 ++ [.sleepV 3] ++ c.2.2.2 ++ v.2.2.2)
  else (.connFailed, c.2.1, c.2.2.1, d1.2.2 ++ [.sleepV 3] ++ c.2.2.2)

/-- The retry loop of `rotate_ip` (`while not rotation_successful and
retry_count <= max_retries`), as a fueled recursion.  On a failed connect
command with `retry_count < max_retries` the location advances round-robin;
on a failed re-verification the same location is retried; between attempts
the code sleeps `5 * retry_count` seconds.  The boolean result is whether an
iteration returned `True` out of `rotate_ip`. -/
def rotate_loop (w : World) (max_retries : Nat) :
    Nat → Nat → String → VpnState → Nat → Bool × VpnState × Nat × List VEvent
  | 0, _, _, s, k => (false, s, k, [])
  | fuel + 1, retry_count, loc, s, k =>
    let a := rotate_attempt w loc s k
    match a.1 with
    | .success => (true, a.2.1, a.2.2.1, a.2.2.2)
    | .connFailed =>
      let lp : String × VpnState :=
        if retry_count < max_retries then get_next_location a.2.1 else (loc, a.2.1)
      if retry_count + 1 ≤ max_retries then
        let r := rotate_loop w max_retries fuel (retry_count + 1) lp.1 lp.2 a.2.2.1
        (r.1, r.2.1, r.2.2.1, a.2.2.2 ++ [.sleepV (5 * (retry_count + 1))] ++ r.2.2.2)
      else (false, lp.2, a.2.2.1, a.2.2.2)
    | .verifyFailed =>
      if retry_count + 1 ≤ max_retries then
        let r := rotate_loop w max_retries fuel (retry_count + 1) loc a.2.1 a.2.2.1
        (r.1, r.2.1, r.2.2.1, a.2.2.2 ++ [.sleepV (5 * (retry_count + 1))] ++ r.2.2.2)
      else (false, a.2.1, a.2.2.1, a.2.2.2)

/-- The last-resort attempt of `rotate_ip` (lines 231-243): one connect with
no explicit location, verified; on success `rotation_attempts` is reset. -/
def final_attempt (w : World) (s : VpnState) (k : Nat) :
    Bool × VpnState × Nat × List VEvent :=
  if (connect w none s k).1 then
    if (verify_connection_status w (connect w none s k).2.1 (connect w none s k).2.2.1).1 then
      (true,
       { (verify_connection_status w (connect w none s k).2.1
            (connect w none s k).2.2.1).2.1 with rotation_attempts := 0 },
       (verify_connection_status w (connect w none s k).2.1 (connect w none s k).2.2.1).2.2.1,
       (connect w none s k).2.2.2 ++
         (verify_connection_status w (connect w none s k).2.1 (connect w none s k).2.2.1).2.2.2)
    else
      (false,
       (verify_connection_status w (connect w none s k).2.1 (connect w none s k).2.2.1).2.1,
       (verify_connection_status w (connect w none s k).2.1 (connect w none s k).2.2.1).2.2.1,
       (connect w none s k).2.2.2 ++
         (verify_connection_status w (connect w none s k).2.1 (connect w none s k).2.2.1).2.2.2)
  else
    (false, (connect w none s k).2.1, (connect w none s k).2.2.1, (connect w none s k).2.2.2)

/-- The tail of `rotate_ip` past the early-return check, with the starting
location already resolved: run the retry loop; when it never succeeded, run
the location-free `final_attempt`, whose outcome is returned. -/
def rotate_core2 (w : World) (max_retries : Nat) (loc : String)
    (s : VpnState) (k : Nat) : Bool × VpnState × Nat × List VEvent :=
  if (rotate_loop w max_retries (max_retries + 2) 0 loc s k).1 then
    (true, (rotate_loop w max_retries (max_retries + 2) 0 loc s k).2.1,
     (rotate_loop w max_retries (max_retries + 2) 0 loc s k).2.2.1,
     (rotate_loop w max_retries (max_retries + 2) 0 loc s k).2.2.2)
  else
    ((final_attempt w (rotate_loop w max_retries (max_retries + 2) 0 loc s k).2.1
        (rotate_loop w max_retries (max_retries + 2) 0 loc s k).2.2.1).1,
     (final_attempt w (rotate_loop w max_retries (max_retries + 2) 0 loc s k).2.1
        (rotate_loop w max_retries (max_retries + 2) 0 loc s k).2.2.1).2.1,
     (final_attempt w (rotate_loop w max_retries (max_retries + 2) 0 loc s k).2.1
        (rotate_loop w max_retries (max_retries + 2) 0 loc s k).2.2.1).2.2.1,
     (rotate_loop w max_retries (max_retries + 2) 0 loc s k).2.2.2 ++
       (final_attempt w (rotate_loop w max_retries (max_retries + 2) 0 loc s k).2.1
          (rotate_loop w max_retries (max_retries + 2) 0 loc s k).2.2.1).2.2.2)

/-- `rotate_core` resolves the optional explicit location (`get_next_location`
when none was given, as in `rotate_ip` lines 176-178) and delegates to
`rotate_core2`. -/
def rotate_core (w : World) (location : Option String) (max_retries : Nat)
    (s : VpnState) (k : Nat) : Bool × VpnState × Nat × List VEvent :=
  match location with
  | some loc => rotate_core2 w max_retries loc s k
  | none => rotate_core2 w max_retries (get_next_location s).1 (get_next_location s).2 k

/-- `VPNManager.rotate_ip(location, force, max_retries, force_reconnect)`
(lines 143-243).  Increments `rotation_attempts`; if it reached
`max_consecutive_failures` or `force_reconnect` is set, restarts the service,
zeroes `rotation_attempts`, disconnects, and forces the rotation.  If not
forced and the status then verifies as connected, returns `True` immediately
(no-op path); otherwise proceeds with `rotate_core`. -/
def rotate_ip (w : World) (location : Option String) (force : Bool)
    (max_retries : Nat) (force_reconnect : Bool) (s : VpnState) (k : Nat) :
    Bool × VpnState × Nat × List VEvent :=
  let s0 : VpnState := { s with rotation_attempts := s.rotation_attempts + 1 }
  if max_consecutive_failures ≤ s0.rotation_attempts ∨ force_reconnect = true then
    let r1 := restart_service w s0 k
    let s1 : VpnState := { r1.2.1 with rotation_attempts := 0 }
    let r2 := disconnect w s1 r1.2.2.1
    let r3 := rotate_core w location max_retries r2.2.1 r2.2.2.1
    (r3.1, r3.2.1, r3.2.2.1, r1.2.2.2 ++ r2.2.2.2 ++ r3.2.2.2)
  else if force then
    rotate_core w location max_retries s0 k
  else
    let rv := verify_connection_status w s0 k
    if rv.1 then (true, rv.2.1, rv.2.2.1, rv.2.2.2)
    else
      let r3 := rotate_core w location max_retries rv.2.1 rv.2.2.1
      (r3.1, r3.2.1, r3.2.2.1, rv.2.2.2 ++ r3.2.2.2)

/-! ## Event helpers -/

/-- Is the event an external disconnect command (regular or forced)? -/
def isDiscEvent : VEvent → Bool
  | .discCmd => true
  | .fdiscCmd => true
  | _ => false

/-- Is the event an external connect command? -/
def isConnEvent : VEvent → Bool
  | .connCmd _ => true
  | _ => false

/-- The explicit locations of the connect commands in a log, in order
(`none` = auto-selected location). -/
def connLocs (l : List VEvent) : List (Option String) :=
  l.filterMap fun e =>
    match e with
    | .connCmd loc => some loc
    | _ => none

/-- A world whose every external command succeeds and whose every status query
reports connected. -/
def wAllOk : World := fun _ => ⟨true, some true, true, true, true⟩

/-- A world whose every external command fails and whose every status query
reports disconnected. -/
def wAllFail : World := fun _ => ⟨false, some false, false, false, false⟩

/-! ## C10: round-robin location selection -/

/-- The result of the `(n+1)`-th consecutive call to `get_next_location`
starting from state `s` (result of that call together with the state it
leaves). -/
def nth_location_call (s : VpnState) : Nat → String × VpnState
  | 0 => get_next_location s
  | n + 1 => nth_location_call (get_next_location s).2 n

theorem LOCATIONS_length : LOCATIONS.length = 10 := rfl

theorem nth_location_call_eq (n : Nat) :
    ∀ s : VpnState, s.current_location_index < 10 →
      nth_location_call s n =
        (LOCATIONS.getD ((s.current_location_index + n) % 10) "",
         { s with current_location_index := (s.current_location_index + n + 1) % 10 }) := by
  induction n with
  | zero =>
    intro s h
    simp only [nth_location_call, get_next_location, LOCATIONS_length, Nat.add_zero]
    rw [Nat.mod_eq_of_lt h]
  | succ n ih =>
    intro s h
    have h1 : ((s.current_location_index + 1) % 10) < 10 := Nat.mod_lt _ (by norm_num)
    simp only [nth_location_call]
    rw [ih _ (by simpa [get_next_location, LOCATIONS_length] using h1)]
    simp only [get_next_location, LOCATIONS_length]
    have e1 : ((s.current_location_index + 1) % 10 + n) % 10 =
        (s.current_location_index + (n + 1)) % 10 := by omega
    have e2 : ((s.current_location_index + 1) % 10 + n + 1) % 10 =
        (s.current_location_index + (n + 1) + 1) % 10 := by omega
    rw [e1, e2]

theorem range10_map_rotate (i : Nat) (h : i < 10) :
    (List.range 10).map (fun n => LOCATIONS.getD ((i + n) % 10) "") = LOCATIONS.rotate i := by
  interval_cases i <;> decide

/-- C10: `VPNManager.get_next_location` cycles round-robin through the fixed
10-entry location list: the index always stays in `[0, 10)`, any 10
consecutive calls return each location exactly once (their results are a
permutation of `LOCATIONS`), and the `(n+10)`-th call returns the same
location as the `n`-th. -/
theorem C10_round_robin (s : VpnState) (h : s.current_location_index < LOCATIONS.length) :
    (∀ t : VpnState, (get_next_location t).2.current_location_index < LOCATIONS.length)
    ∧ (∀ n : Nat, (nth_location_call s (n + 10)).1 = (nth_location_call s n).1)
    ∧ ((List.range 10).map (fun n => (nth_location_call s n).1)).Perm LOCATIONS := by
  have h10 : s.current_location_index < 10 := by simpa [LOCATIONS] using h
  refine ⟨fun t => ?_, fun n => ?_, ?_⟩
  · simp only [get_next_location, LOCATIONS]
    exact Nat.mod_lt _ (by norm_num)
  · rw [nth_location_call_eq _ _ h10, nth_location_call_eq _ _ h10]
    simp only []
    rw [show s.current_location_index + (n + 10) = s.current_location_index + n + 10 by ring,
      Nat.add_mod_right]
  · have : ((List.range 10).map (fun n => (nth_location_call s n).1)) =
        (List.range 10).map (fun n => LOCATIONS.getD ((s.current_location_index + n) % 10) "") := by
      refine List.map_congr_left ?_
      intro n _
      rw [nth_location_call_eq _ _ h10]
    rw [this, range10_map_rotate _ h10]
    exact List.rotate_perm LOCATIONS s.current_location_index

/-- Witness for C10 at the initial state (index 0). -/
theorem C10_round_robin_witness :
    (⟨false, 0, 0⟩ : VpnState).current_location_index < LOCATIONS.length
    ∧ ((List.range 10).map (fun n => (nth_location_call ⟨false, 0, 0⟩ n).1)).Perm LOCATIONS :=
  ⟨by decide, (C10_round_robin ⟨false, 0, 0⟩ (by decide)).2.2⟩

/-! ## C3: rotate_ip on a verified-connected state -/

/-- C3 (amended): on a state whose status query verifies as connected,
`rotate_ip` with `force=false` and `force_reconnect=false` is a no-op
rotation returning `True` with zero disconnect and zero connect commands —
PROVIDED the incremented consecutive-rotation counter stays below
`max_consecutive_failures`; even then the state is not fully unchanged:
`rotation_attempts` is incremented (and `connected` is set from the status
query).  (The original claim, quantified over every verified-connected state,
fails when `rotation_attempts + 1 ≥ 3`: see the counterexample.) -/
theorem C3_noop_rotation (w : World) (s : VpnState) (k : Nat) (mr : Nat)
    (hst : (w k).statusR = some true)
    (hra : s.rotation_attempts + 1 < max_consecutive_failures) :
    rotate_ip w none false mr false s k =
      (true, { s with connected := true, rotation_attempts := s.rotation_attempts + 1 },
       k + 1, [.statusCmd])
    ∧ ((rotate_ip w none false mr false s k).2.2.2.countP isDiscEvent = 0
       ∧ (rotate_ip w none false mr false s k).2.2.2.countP isConnEvent = 0) := by
  have hlt : ¬ (max_consecutive_failures ≤ s.rotation_attempts + 1) := Nat.not_le.mpr hra
  have heq : rotate_ip w none false mr false s k =
      (true, { s with connected := true, rotation_attempts := s.rotation_attempts + 1 },
       k + 1, [.statusCmd]) := by
    unfold rotate_ip
    rw [if_neg (by simpa using hlt), if_neg (by simp)]
    simp only [verify_connection_status, hst]
    simp
  refine ⟨heq, ?_, ?_⟩ <;> rw [heq] <;> rfl

/-- Witness for C3 at a concrete verified-connected state with
`rotation_attempts = 0`. -/
theorem C3_noop_rotation_witness :
    rotate_ip wAllOk none false 3 false ⟨true, 0, 0⟩ 0 =
      (true, ⟨true, 0, 1⟩, 1, [.statusCmd]) :=
  ((C3_noop_rotation wAllOk ⟨true, 0, 0⟩ 0 3 rfl (by decide)).1)

/-! ## C8: retry behaviour of the reconnect path of rotate_ip -/

/-- The retry backoff sleeps of a log: the durations of the `sleepV` events
that are multiples of 5 (all other sleeps in this code are the fixed 3-second
settle delays, so these are exactly the `time.sleep(5 * retry_count)`
backoffs of the rotation retry loop). -/
def retrySleeps (l : List VEvent) : List Nat :=
  l.filterMap fun e =>
    match e with
    | .sleepV n => if n % 5 = 0 then some n else none
    | _ => none

theorem connLocs_append (a b : List VEvent) :
    connLocs (a ++ b) = connLocs a ++ connLocs b := by
  simp [connLocs]

theorem retrySleeps_append (a b : List VEvent) :
    retrySleeps (a ++ b) = retrySleeps a ++ retrySleeps b := by
  simp [retrySleeps]

theorem connLocs_disconnect (w : World) (s : VpnState) (k : Nat) :
    connLocs (disconnect w s k).2.2.2 = [] := by
  unfold disconnect; split <;> rfl

theorem connLocs_verify (w : World) (s : VpnState) (k : Nat) :
    connLocs (verify_connection_status w s k).2.2.2 = [] := by
  unfold verify_connection_status
  cases h : (w k).statusR with
  | none => rfl
  | some b => cases b <;> rfl

theorem connLocs_fdisc (w : World) (s : VpnState) (k : Nat) :
    connLocs (force_disconnect w s k).2.2.2 = [] := by
  unfold force_disconnect; split <;> rfl

theorem retrySleeps_disconnect (w : World) (s : VpnState) (k : Nat) :
    retrySleeps (disconnect w s k).2.2.2 = [] := by
  unfold disconnect; split <;> rfl

theorem retrySleeps_verify (w : World) (s : VpnState) (k : Nat) :
    retrySleeps (verify_connection_status w s k).2.2.2 = [] := by
  unfold verify_connection_status
  cases h : (w k).statusR with
  | none => rfl
  | some b => cases b <;> rfl

theorem retrySleeps_fdisc (w : World) (s : VpnState) (k : Nat) :
    retrySleeps (force_disconnect w s k).2.2.2 = [] := by
  unfold force_disconnect; split <;> rfl

theorem connLocs_nil : connLocs [] = [] := rfl

theorem connLocs_cons_conn (loc : Option String) (l : List VEvent) :
    connLocs (VEvent.connCmd loc :: l) = loc :: connLocs l := rfl

theorem connLocs_cons_sleep (n : Nat) (l : List VEvent) :
    connLocs (VEvent.sleepV n :: l) = connLocs l := rfl

theorem retrySleeps_nil : retrySleeps [] = [] := rfl

theorem retrySleeps_cons_conn (loc : Option String) (l : List VEvent) :
    retrySleeps (VEvent.connCmd loc :: l) = retrySleeps l := rfl

theorem retrySleeps_cons_sleep3 (l : List VEvent) :
    retrySleeps (VEvent.sleepV 3 :: l) = retrySleeps l := by
  simp [retrySleeps]

theorem retrySleeps_cons_sleep5 (m : Nat) (l : List VEvent) :
    retrySleeps (VEvent.sleepV (5 * m) :: l) = 5 * m :: retrySleeps l := by
  simp [retrySleeps, Nat.mul_mod_right]

theorem connLocs_connect (w : World) (loc : Option String) (s : VpnState) (k : Nat) :
    connLocs (connect w loc s k).2.2.2 = [loc] := by
  simp only [connect]
  split_ifs <;>
    simp [connLocs_append, connLocs_disconnect, connLocs_verify,
      connLocs_cons_conn, connLocs_cons_sleep, connLocs_nil]

theorem retrySleeps_connect (w : World) (loc : Option String) (s : VpnState) (k : Nat) :
    retrySleeps (connect w loc s k).2.2.2 = [] := by
  simp only [connect]
  split_ifs <;>
    simp [retrySleeps_append, retrySleeps_disconnect, retrySleeps_verify,
      retrySleeps_cons_conn, retrySleeps_cons_sleep3, retrySleeps_nil]

theorem connLocs_attempt (w : World) (loc : String) (s : VpnState) (k : Nat) :
    connLocs (rotate_attempt w loc s k).2.2.2 = [some loc] := by
  simp only [rotate_attempt]
  split_ifs <;>
    simp [connLocs_append, connLocs_disconnect, connLocs_verify, connLocs_fdisc,
      connLocs_connect, connLocs_cons_conn, connLocs_cons_sleep, connLocs_nil]

theorem retrySleeps_attempt (w : World) (loc : String) (s : VpnState) (k : Nat) :
    retrySleeps (rotate_attempt w loc s k).2.2.2 = [] := by
  simp only [rotate_attempt]
  split_ifs <;>
    simp [retrySleeps_append, retrySleeps_disconnect, retrySleeps_verify, retrySleeps_fdisc,
      retrySleeps_connect, retrySleeps_cons_conn, retrySleeps_cons_sleep3, retrySleeps_nil]

theorem rotate_loop_zero (w : World) (mr rc : Nat) (loc : String) (s : VpnState) (k : Nat) :
    rotate_loop w mr 0 rc loc s k = (false, s, k, []) := rfl

theorem rotate_loop_success (w : World) (mr f rc : Nat) (loc : String) (s : VpnState) (k : Nat)
    (h : (rotate_attempt w loc s k).1 = .success) :
    rotate_loop w mr (f + 1) rc loc s k =
      (true, (rotate_attempt w loc s k).2.1, (rotate_attempt w loc s k).2.2.1,
       (rotate_attempt w loc s k).2.2.2) := by
  simp only [rotate_loop]
  rw [h]

theorem rotate_loop_connFailed_retry (w : World) (mr f rc : Nat) (loc : String)
    (s : VpnState) (k : Nat)
    (h : (rotate_attempt w loc s k).1 = .connFailed) (hrc : rc < mr) :
    rotate_loop w mr (f + 1) rc loc s k =
      ((rotate_loop w mr f (rc + 1) (get_next_location (rotate_attempt w loc s k).2.1).1
          (get_next_location (rotate_attempt w loc s k).2.1).2
          (rotate_attempt w loc s k).2.2.1).1,
       (rotate_loop w mr f (rc + 1) (get_next_location (rotate_attempt w loc s k).2.1).1
          (get_next_location (rotate_attempt w loc s k).2.1).2
          (rotate_attempt w loc s k).2.2.1).2.1,
       (rotate_loop w mr f (rc + 1) (get_next_location (rotate_attempt w loc s k).2.1).1
          (get_next_location (rotate_attempt w loc s k).2.1).2
          (rotate_attempt w loc s k).2.2.1).2.2.1,
       (rotate_attempt w loc s k).2.2.2 ++ [.sleepV (5 * (rc + 1))] ++
         (rotate_loop w mr f (rc + 1) (get_next_location (rotate_attempt w loc s k).2.1).1
            (get_next_location (rotate_attempt w loc s k).2.1).2
            (rotate_attempt w loc s k).2.2.1).2.2.2) := by
  have hrc2 : rc + 1 <= mr := hrc
  simp only [rotate_loop]
  rw [h]
  simp [hrc, hrc2]

theorem rotate_loop_connFailed_stop (w : World) (mr f rc : Nat) (loc : String)
    (s : VpnState) (k : Nat)
    (h : (rotate_attempt w loc s k).1 = .connFailed) (hrc : ¬ rc < mr) :
    rotate_loop w mr (f + 1) rc loc s k =
      (false, (rotate_attempt w loc s k).2.1, (rotate_attempt w loc s k).2.2.1,
       (rotate_attempt w loc s k).2.2.2) := by
  have hrc2 : ¬ (rc + 1 <= mr) := hrc
  simp only [rotate_loop]
  rw [h]
  simp [hrc, hrc2]

theorem rotate_loop_verifyFailed_retry (w : World) (mr f rc : Nat) (loc : String)
    (s : VpnState) (k : Nat)
    (h : (rotate_attempt w loc s k).1 = .verifyFailed) (hrc : rc + 1 <= mr) :
    rotate_loop w mr (f + 1) rc loc s k =
      ((rotate_loop w mr f (rc + 1) loc (rotate_attempt w loc s k).2.1
          (rotate_attempt w loc s k).2.2.1).1,
       (rotate_loop w mr f (rc + 1) loc (rotate_attempt w loc s k).2.1
          (rotate_attempt w loc s k).2.2.1).2.1,
       (rotate_loop w mr f (rc + 1) loc (rotate_attempt w loc s k).2.1
          (rotate_attempt w loc s k).2.2.1).2.2.1,
       (rotate_attempt w loc s k).2.2.2 ++ [.sleepV (5 * (rc + 1))] ++
         (rotate_loop w mr f (rc + 1) loc (rotate_attempt w loc s k).2.1
            (rotate_attempt w loc s k).2.2.1).2.2.2) := by
  simp only [rotate_loop]
  rw [h]
  simp [hrc]

theorem rotate_loop_verifyFailed_stop (w : World) (mr f rc : Nat) (loc : String)
    (s : VpnState) (k : Nat)
    (h : (rotate_attempt w loc s k).1 = .verifyFailed) (hrc : ¬ rc + 1 <= mr) :
    rotate_loop w mr (f + 1) rc loc s k =
      (false, (rotate_attempt w loc s k).2.1, (rotate_attempt w loc s k).2.2.1,
       (rotate_attempt w loc s k).2.2.2) := by
  simp only [rotate_loop]
  rw [h]
  simp [hrc]

theorem rotate_loop_conn_some (w : World) (mr : Nat) :
    ∀ fuel rc loc s k, ∃ locs : List String,
      connLocs (rotate_loop w mr fuel rc loc s k).2.2.2 = locs.map some := by
  intro fuel
  induction fuel with
  | zero => intro rc loc s k; exact ⟨[], rfl⟩
  | succ f ih =>
    intro rc loc s k
    cases ha : (rotate_attempt w loc s k).1 with
    | success =>
      rw [rotate_loop_success w mr f rc loc s k ha]
      exact ⟨[loc], by simp [connLocs_attempt]⟩
    | connFailed =>
      by_cases hrc : rc < mr
      · rw [rotate_loop_connFailed_retry w mr f rc loc s k ha hrc]
        obtain ⟨locs, hl⟩ := ih (rc + 1) (get_next_location (rotate_attempt w loc s k).2.1).1
          (get_next_location (rotate_attempt w loc s k).2.1).2 (rotate_attempt w loc s k).2.2.1
        exact ⟨loc :: locs,
          by simp [connLocs_append, connLocs_attempt, connLocs_cons_sleep, connLocs_nil, hl]⟩
      · rw [rotate_loop_connFailed_stop w mr f rc loc s k ha hrc]
        exact ⟨[loc], by simp [connLocs_attempt]⟩
    | verifyFailed =>
      by_cases hrc : rc + 1 <= mr
      · rw [rotate_loop_verifyFailed_retry w mr f rc loc s k ha hrc]
        obtain ⟨locs, hl⟩ :=
          ih (rc + 1) loc (rotate_attempt w loc s k).2.1 (rotate_attempt w loc s k).2.2.1
        exact ⟨loc :: locs,
          by simp [connLocs_append, connLocs_attempt, connLocs_cons_sleep, connLocs_nil, hl]⟩
      · rw [rotate_loop_verifyFailed_stop w mr f rc loc s k ha hrc]
        exact ⟨[loc], by simp [connLocs_attempt]⟩

theorem rotate_loop_conn_len (w : World) (mr : Nat) :
    ∀ fuel rc loc s k, rc <= mr →
      (connLocs (rotate_loop w mr fuel rc loc s k).2.2.2).length + rc <= mr + 1 := by
  intro fuel
  induction fuel with
  | zero =>
    intro rc loc s k h
    rw [rotate_loop_zero]
    simp [connLocs_nil]
    omega
  | succ f ih =>
    intro rc loc s k h
    cases ha : (rotate_attempt w loc s k).1 with
    | success =>
      rw [rotate_loop_success w mr f rc loc s k ha]
      simp [connLocs_attempt]
      omega
    | connFailed =>
      by_cases hrc : rc < mr
      · rw [rotate_loop_connFailed_retry w mr f rc loc s k ha hrc]
        have := ih (rc + 1) (get_next_location (rotate_attempt w loc s k).2.1).1
          (get_next_location (rotate_attempt w loc s k).2.1).2
          (rotate_attempt w loc s k).2.2.1 hrc
        simp only [connLocs_append, connLocs_attempt, connLocs_cons_sleep, connLocs_nil,
          List.length_append, List.length_cons, List.length_nil] at this ⊢
        omega
      · rw [rotate_loop_connFailed_stop w mr f rc loc s k ha hrc]
        simp [connLocs_attempt]
        omega
    | verifyFailed =>
      by_cases hrc : rc + 1 <= mr
      · rw [rotate_loop_verifyFailed_retry w mr f rc loc s k ha hrc]
        have := ih (rc + 1) loc (rotate_attempt w loc s k).2.1
          (rotate_attempt w loc s k).2.2.1 hrc
        simp only [connLocs_append, connLocs_attempt, connLocs_cons_sleep, connLocs_nil,
          List.length_append, List.length_cons, List.length_nil] at this ⊢
        omega
      · rw [rotate_loop_verifyFailed_stop w mr f rc loc s k ha hrc]
        simp [connLocs_attempt]
        omega

theorem range_shift_five (rc j : Nat) :
    5 * (rc + 1) :: (List.range j).map (fun i => 5 * (rc + 1 + 1 + i)) =
      (List.range (j + 1)).map (fun i => 5 * (rc + 1 + i)) := by
  rw [List.range_succ_eq_map, List.map_cons, List.map_map]
  refine congrArg₂ _ (by omega) ?_
  refine List.map_congr_left ?_
  intro i _
  simp [Function.comp]
  omega

theorem rotate_loop_sleeps (w : World) (mr : Nat) :
    ∀ fuel rc loc s k, ∃ j,
      retrySleeps (rotate_loop w mr fuel rc loc s k).2.2.2 =
        (List.range j).map (fun i => 5 * (rc + 1 + i)) := by
  intro fuel
  induction fuel with
  | zero => intro rc loc s k; exact ⟨0, rfl⟩
  | succ f ih =>
    intro rc loc s k
    cases ha : (rotate_attempt w loc s k).1 with
    | success =>
      rw [rotate_loop_success w mr f rc loc s k ha]
      exact ⟨0, by simp [retrySleeps_attempt]⟩
    | connFailed =>
      by_cases hrc : rc < mr
      · rw [rotate_loop_connFailed_retry w mr f rc loc s k ha hrc]
        obtain ⟨j, hj⟩ := ih (rc + 1) (get_next_location (rotate_attempt w loc s k).2.1).1
          (get_next_location (rotate_attempt w loc s k).2.1).2 (rotate_attempt w loc s k).2.2.1
        refine ⟨j + 1, ?_⟩
        rw [retrySleeps_append, retrySleeps_append, retrySleeps_attempt,
          retrySleeps_cons_sleep5, retrySleeps_nil, hj]
        simp [range_shift_five]
      · rw [rotate_loop_connFailed_stop w mr f rc loc s k ha hrc]
        exact ⟨0, by simp [retrySleeps_attempt]⟩
    | verifyFailed =>
      by_cases hrc : rc + 1 <= mr
      · rw [rotate_loop_verifyFailed_retry w mr f rc loc s k ha hrc]
        obtain ⟨j, hj⟩ :=
          ih (rc + 1) loc (rotate_attempt w loc s k).2.1 (rotate_attempt w loc s k).2.2.1
        refine ⟨j + 1, ?_⟩
        rw [retrySleeps_append, retrySleeps_append, retrySleeps_attempt,
          retrySleeps_cons_sleep5, retrySleeps_nil, hj]
        simp [range_shift_five]
      · rw [rotate_loop_verifyFailed_stop w mr f rc loc s k ha hrc]
        exact ⟨0, by simp [retrySleeps_attempt]⟩

theorem disconnect_log (w : World) (s : VpnState) (k : Nat) :
    (disconnect w s k).2.2.2 = [VEvent.discCmd] := by
  unfold disconnect; split <;> rfl

theorem verify_log (w : World) (s : VpnState) (k : Nat) :
    (verify_connection_status w s k).2.2.2 = [VEvent.statusCmd] := by
  unfold verify_connection_status
  cases h : (w k).statusR with
  | none => rfl
  | some b => cases b <;> rfl

theorem restart_log (w : World) (s : VpnState) (k : Nat) :
    (restart_service w s k).2.2.2 = [VEvent.restartSvc] := rfl

/-- The first connect command issued by a (nonzero-fuel) run of the retry
loop targets exactly the location the loop was entered with. -/
theorem rotate_loop_head (w : World) (mr f rc : Nat) (loc : String) (s : VpnState) (k : Nat) :
    ∃ rest, connLocs (rotate_loop w mr (f + 1) rc loc s k).2.2.2 = some loc :: rest := by
  cases ha : (rotate_attempt w loc s k).1 with
  | success =>
    rw [rotate_loop_success w mr f rc loc s k ha]
    exact ⟨[], by simp [connLocs_attempt]⟩
  | connFailed =>
    by_cases hrc : rc < mr
    · rw [rotate_loop_connFailed_retry w mr f rc loc s k ha hrc]
      refine ⟨connLocs (rotate_loop w mr f (rc + 1)
          (get_next_location (rotate_attempt w loc s k).2.1).1
          (get_next_location (rotate_attempt w loc s k).2.1).2
          (rotate_attempt w loc s k).2.2.1).2.2.2, ?_⟩
      simp [connLocs_append, connLocs_attempt, connLocs_cons_sleep, connLocs_nil]
    · rw [rotate_loop_connFailed_stop w mr f rc loc s k ha hrc]
      exact ⟨[], by simp [connLocs_attempt]⟩
  | verifyFailed =>
    by_cases hrc : rc + 1 <= mr
    · rw [rotate_loop_verifyFailed_retry w mr f rc loc s k ha hrc]
      refine ⟨connLocs (rotate_loop w mr f (rc + 1) loc (rotate_attempt w loc s k).2.1
          (rotate_attempt w loc s k).2.2.1).2.2.2, ?_⟩
      simp [connLocs_append, connLocs_attempt, connLocs_cons_sleep, connLocs_nil]
    · rw [rotate_loop_verifyFailed_stop w mr f rc loc s k ha hrc]
      exact ⟨[], by simp [connLocs_attempt]⟩

theorem rotate_core2_false_loop (w : World) (mr : Nat) (loc : String) (s : VpnState) (k : Nat)
    (hf : (rotate_core2 w mr loc s k).1 = false) :
    (rotate_loop w mr (mr + 2) 0 loc s k).1 = false := by
  by_contra h
  have h2 : (rotate_loop w mr (mr + 2) 0 loc s k).1 = true := by simpa using h
  unfold rotate_core2 at hf
  rw [if_pos (by simp [h2])] at hf
  simp at hf

theorem connLocs_final (w : World) (s : VpnState) (k : Nat) :
    connLocs (final_attempt w s k).2.2.2 = [none] := by
  unfold final_attempt
  split_ifs <;> simp [connLocs_append, connLocs_connect, connLocs_verify]

theorem retrySleeps_final (w : World) (s : VpnState) (k : Nat) :
    retrySleeps (final_attempt w s k).2.2.2 = [] := by
  unfold final_attempt
  split_ifs <;> simp [retrySleeps_append, retrySleeps_connect, retrySleeps_verify]

theorem rotate_core2_log_shape (w : World) (mr : Nat) (loc : String) (s : VpnState) (k : Nat)
    (h1 : (rotate_loop w mr (mr + 2) 0 loc s k).1 = false) :
    ∃ locs : List String,
      connLocs (rotate_core2 w mr loc s k).2.2.2 = locs.map some ++ [none] := by
  obtain ⟨locs, hl⟩ := rotate_loop_conn_some w mr (mr + 2) 0 loc s k
  unfold rotate_core2
  rw [if_neg (by simp [h1])]
  exact ⟨locs, by simp [connLocs_append, connLocs_final, hl]⟩

theorem rotate_core2_sleeps (w : World) (mr : Nat) (loc : String) (s : VpnState) (k : Nat) :
    ∃ j, retrySleeps (rotate_core2 w mr loc s k).2.2.2 =
      (List.range j).map (fun i => 5 * (1 + i)) := by
  obtain ⟨j, hj⟩ := rotate_loop_sleeps w mr (mr + 2) 0 loc s k
  refine ⟨j, ?_⟩
  unfold rotate_core2
  split
  · exact hj
  · simp only [retrySleeps_append, retrySleeps_final, List.append_nil]
    exact hj

theorem rotate_core2_len (w : World) (mr : Nat) (loc : String) (s : VpnState) (k : Nat) :
    (connLocs (rotate_core2 w mr loc s k).2.2.2).length <= mr + 2 := by
  have h := rotate_loop_conn_len w mr (mr + 2) 0 loc s k (Nat.zero_le mr)
  unfold rotate_core2
  split
  · dsimp only
    omega
  · simp only [connLocs_append, connLocs_final, List.length_append,
      List.length_cons, List.length_nil]
    omega

theorem rotate_core_false_shape (w : World) (location : Option String) (mr : Nat)
    (s : VpnState) (k : Nat) (hf : (rotate_core w location mr s k).1 = false) :
    ∃ locs : List String,
      connLocs (rotate_core w location mr s k).2.2.2 = locs.map some ++ [none] := by
  cases location with
  | some loc => exact rotate_core2_log_shape w mr loc s k (rotate_core2_false_loop w mr loc s k hf)
  | none =>
    exact rotate_core2_log_shape w mr (get_next_location s).1 (get_next_location s).2 k
      (rotate_core2_false_loop w mr (get_next_location s).1 (get_next_location s).2 k hf)

theorem rotate_core_sleeps (w : World) (location : Option String) (mr : Nat)
    (s : VpnState) (k : Nat) :
    ∃ j, retrySleeps (rotate_core w location mr s k).2.2.2 =
      (List.range j).map (fun i => 5 * (1 + i)) := by
  cases location with
  | some loc => exact rotate_core2_sleeps w mr loc s k
  | none => exact rotate_core2_sleeps w mr (get_next_location s).1 (get_next_location s).2 k

theorem rotate_core_len (w : World) (location : Option String) (mr : Nat)
    (s : VpnState) (k : Nat) :
    (connLocs (rotate_core w location mr s k).2.2.2).length <= mr + 2 := by
  cases location with
  | some loc => exact rotate_core2_len w mr loc s k
  | none => exact rotate_core2_len w mr (get_next_location s).1 (get_next_location s).2 k

/-- Every `rotate_ip` run is either the verified-connected no-op (one status
command), or a prefix with no connect commands and no retry sleeps followed
by a full `rotate_core` run. -/
theorem rotate_ip_shape (w : World) (location : Option String) (force : Bool)
    (mr : Nat) (fr : Bool) (s : VpnState) (k : Nat) :
    (∃ s2 k2, rotate_ip w location force mr fr s k = (true, s2, k2, [VEvent.statusCmd]))
    ∨ (∃ pre s1 k1,
        rotate_ip w location force mr fr s k =
          ((rotate_core w location mr s1 k1).1,
           (rotate_core w location mr s1 k1).2.1,
           (rotate_core w location mr s1 k1).2.2.1,
           pre ++ (rotate_core w location mr s1 k1).2.2.2)
        ∧ connLocs pre = [] ∧ retrySleeps pre = []) := by
  by_cases hb : max_consecutive_failures ≤ s.rotation_attempts + 1 ∨ fr = true
  · right
    refine ⟨[VEvent.restartSvc, VEvent.discCmd],
      (disconnect w
        { (restart_service w { s with rotation_attempts := s.rotation_attempts + 1 } k).2.1 with
            rotation_attempts := 0 }
        (restart_service w { s with rotation_attempts := s.rotation_attempts + 1 } k).2.2.1).2.1,
      (disconnect w
        { (restart_service w { s with rotation_attempts := s.rotation_attempts + 1 } k).2.1 with
            rotation_attempts := 0 }
        (restart_service w { s with rotation_attempts := s.rotation_attempts + 1 } k).2.2.1).2.2.1,
      ?_, rfl, rfl⟩
    simp only [rotate_ip]
    rw [if_pos (by simpa using hb)]
    rw [restart_log, disconnect_log]
    rfl
  · simp only [rotate_ip]
    rw [if_neg (by simpa using hb)]
    by_cases hforce : force = true
    · right
      refine ⟨[], { s with rotation_attempts := s.rotation_attempts + 1 }, k, ?_, rfl, rfl⟩
      rw [if_pos hforce]
      simp
    · rw [if_neg hforce]
      by_cases hv : (verify_connection_status w
          { s with rotation_attempts := s.rotation_attempts + 1 } k).1 = true
      · left
        rw [if_pos hv]
        refine ⟨(verify_connection_status w
            { s with rotation_attempts := s.rotation_attempts + 1 } k).2.1,
          (verify_connection_status w
            { s with rotation_attempts := s.rotation_attempts + 1 } k).2.2.1, ?_⟩
        rw [verify_log]
      · right
        rw [if_neg hv]
        refine ⟨[VEvent.statusCmd],
          (verify_connection_status w
            { s with rotation_attempts := s.rotation_attempts + 1 } k).2.1,
          (verify_connection_status w
            { s with rotation_attempts := s.rotation_attempts + 1 } k).2.2.1, ?_, rfl, rfl⟩
        rw [verify_log]

/-- C8 (amended): behaviour of the reconnect path of `rotate_ip`.  (1) When
`rotate_ip` returns false, every connect command but the last named an
explicit location and the last one was the final location-free attempt — so
false is returned only when that final attempt fails to verify.  (2) The
retry backoff sleeps form the sequence 5 s, 10 s, ... (5 s × retry index).
(3) The retry loop plus the final attempt issue at most `maxRetries + 2`
connect commands.  (4) An attempt whose connect command fails, with retries
remaining, is followed by an attempt at the next round-robin location taken
from the post-attempt state.  (5) An attempt whose connect succeeded but
whose re-verification failed retries the SAME location (this is where the
original claim, which said every failed attempt advances the location,
fails — see the counterexample). -/
theorem C8_reconnect_retries (w : World) (mr : Nat) :
    (∀ location force fr s k,
        (rotate_ip w location force mr fr s k).1 = false →
        ∃ locs : List String,
          connLocs (rotate_ip w location force mr fr s k).2.2.2 = locs.map some ++ [none])
    ∧ (∀ location force fr s k, ∃ j,
        retrySleeps (rotate_ip w location force mr fr s k).2.2.2 =
          (List.range j).map (fun i => 5 * (1 + i)))
    ∧ (∀ location force fr s k,
        (connLocs (rotate_ip w location force mr fr s k).2.2.2).length ≤ mr + 2)
    ∧ (∀ f rc loc s k, (rotate_attempt w loc s k).1 = .connFailed → rc < mr →
        ∃ rest, connLocs (rotate_loop w mr (f + 2) rc loc s k).2.2.2 =
          some loc :: some (get_next_location (rotate_attempt w loc s k).2.1).1 :: rest)
    ∧ (∀ f rc loc s k, (rotate_attempt w loc s k).1 = .verifyFailed → rc + 1 ≤ mr →
        ∃ rest, connLocs (rotate_loop w mr (f + 2) rc loc s k).2.2.2 =
          some loc :: some loc :: rest) := by
  refine ⟨?_, ?_, ?_, ?_, ?_⟩
  · intro location force fr s k hf
    rcases rotate_ip_shape w location force mr fr s k with ⟨s2, k2, heq⟩ |
      ⟨pre, s1, k1, heq, hc, hr⟩
    · rw [heq] at hf
      simp at hf
    · rw [heq] at hf ⊢
      obtain ⟨locs, hl⟩ := rotate_core_false_shape w location mr s1 k1 hf
      exact ⟨locs, by simp [connLocs_append, hc, hl]⟩
  · intro location force fr s k
    rcases rotate_ip_shape w location force mr fr s k with ⟨s2, k2, heq⟩ |
      ⟨pre, s1, k1, heq, hc, hr⟩
    · rw [heq]
      exact ⟨0, rfl⟩
    · rw [heq]
      obtain ⟨j, hj⟩ := rotate_core_sleeps w location mr s1 k1
      exact ⟨j, by simp [retrySleeps_append, hr, hj]⟩
  · intro location force fr s k
    rcases rotate_ip_shape w location force mr fr s k with ⟨s2, k2, heq⟩ |
      ⟨pre, s1, k1, heq, hc, hr⟩
    · rw [heq]
      have h0 : connLocs [VEvent.statusCmd] = [] := rfl
      simp [h0]
    · rw [heq]
      have := rotate_core_len w location mr s1 k1
      simp only [connLocs_append, hc, List.length_append, List.nil_append,
        List.length_nil]
      omega
  · intro f rc loc s k ha hrc
    rw [rotate_loop_connFailed_retry w mr (f + 1) rc loc s k ha hrc]
    obtain ⟨rest, hr⟩ := rotate_loop_head w mr f (rc + 1)
      (get_next_location (rotate_attempt w loc s k).2.1).1
      (get_next_location (rotate_attempt w loc s k).2.1).2
      (rotate_attempt w loc s k).2.2.1
    exact ⟨rest, by
      simp [connLocs_append, connLocs_attempt, connLocs_cons_sleep, connLocs_nil, hr]⟩
  · intro f rc loc s k ha hrc
    rw [rotate_loop_verifyFailed_retry w mr (f + 1) rc loc s k ha hrc]
    obtain ⟨rest, hr⟩ := rotate_loop_head w mr f (rc + 1) loc
      (rotate_attempt w loc s k).2.1 (rotate_attempt w loc s k).2.2.1
    exact ⟨rest, by
      simp [connLocs_append, connLocs_attempt, connLocs_cons_sleep, connLocs_nil, hr]⟩

/-- A world driving one `rotate_ip` run of the counterexample to C8: the
first loop attempt connects (command succeeds, in-connect verification
passes) but the re-verification inside the loop body fails; the second
attempt then succeeds outright. -/
def w8 : World := fun n =>
  match n with
  | 0 => ⟨true, some false, true, true, true⟩
  | 1 => ⟨true, some false, true, true, true⟩
  | 2 => ⟨true, some false, true, true, true⟩
  | 3 => ⟨true, some true, true, true, true⟩
  | 4 => ⟨true, some false, true, true, true⟩
  | 5 => ⟨true, some false, true, true, true⟩
  | 6 => ⟨true, some false, true, true, true⟩
  | 7 => ⟨true, some false, true, true, true⟩
  | 8 => ⟨true, some true, true, true, true⟩
  | _ => ⟨true, some true, true, true, true⟩

/-- Witness for C8 at concrete worlds: at the all-failing world with
`maxRetries = 1` the run returns false and its connect commands are two
explicit locations followed by the location-free final attempt; at `w8` the
first attempt fails its re-verification with retries remaining, and the next
connect retries the same location. -/
theorem C8_reconnect_retries_witness :
    (∃ locs : List String,
        connLocs (rotate_ip wAllFail none true 1 false ⟨false, 0, 0⟩ 0).2.2.2 =
          locs.map some ++ [none])
    ∧ (∃ rest, connLocs (rotate_loop w8 3 2 0 "US" ⟨false, 0, 0⟩ 0).2.2.2 =
        some "US" :: some "US" :: rest) :=
  ⟨(C8_reconnect_retries wAllFail 1).1 none true false ⟨false, 0, 0⟩ 0 (by decide),
   (C8_reconnect_retries w8 3).2.2.2.2 0 0 "US" ⟨false, 0, 0⟩ 0 (by decide) (by decide)⟩

/-- Counterexample to C8 as stated: with world `w8`, a forced `rotate_ip`
starting from `{connected := false, index := 0, rotation_attempts := 0}`
makes a first attempt at location "US" that fails (its re-verification
reports disconnected), and the retry issues its connect command for "US"
again — not for "CA", the next location of the fixed round-robin list — so
not every failed attempt retries with the next location. -/
theorem C8_counterexample :
    connLocs (rotate_ip w8 none true 3 false ⟨false, 0, 0⟩ 0).2.2.2 =
      [some "US", some "US"]
    ∧ (rotate_ip w8 none true 3 false ⟨false, 0, 0⟩ 0).1 = true
    ∧ LOCATIONS.getD 1 "" = "CA" := by
  refine ⟨?_, ?_, ?_⟩ <;> decide

/-- Counterexample to C3 as stated: the state `{connected := true,
current_location_index := 0, rotation_attempts := 2}` verifies as connected
(every status query of `wAllOk` reports connected), yet `rotate_ip` with
`force=false`, `force_reconnect=false` issues two disconnect commands and one
connect command (the consecutive-attempts counter reaches 3, triggering the
service-restart/reconnect path), so the call is not a zero-command no-op and
the state is not left otherwise unchanged. -/
theorem C3_counterexample :
    (wAllOk 0).statusR = some true
    ∧ (rotate_ip wAllOk none false 3 false ⟨true, 0, 2⟩ 0).2.2.2.countP isDiscEvent = 2
    ∧ (rotate_ip wAllOk none false 3 false ⟨true, 0, 2⟩ 0).2.2.2.countP isConnEvent = 1 := by
  refine ⟨rfl, ?_, ?_⟩ <;> decide

/-! ## ImageProcessor / Dewatermarker pipeline state and events -/

/-- Python `str.lower()` as a structural per-character map (the phrases and
messages of this program are ASCII, on which this is exactly
`String.toLower`). -/
def strLower (s : String) : String := String.mk (s.toList.map Char.toLower)

/-- Case-insensitive-ready substring test: `strContains hay needle` is the
Python `needle in hay` on strings (callers pass both sides lowered, matching
`phrase.lower() in text.lower()`). -/
def strContains (hay needle : String) : Bool :=
  (List.range (hay.toList.length + 1)).any
    (fun i => needle.toList.isPrefixOf (hay.toList.drop i))

/-- `ImageProcessor.max_requests_before_rotation` (set to 3 in `__init__`). -/
def max_requests_before_rotation : Nat := 3

/-- `ImageProcessor.max_retries` (set to 4 in `__init__` and in
`process_image`). -/
def IP_max_retries : Nat := 4

/-- Pipeline-level observable events: rotation calls (with their `force` /
`force_reconnect` arguments and boolean result), writes to the shared
`ImageProcessor.request_count` (`setCount` / `incrCount`), the start of a
processing attempt, browser/context opens and closes, clicks issued on the
download control (`js` distinguishes the JavaScript fallback click from the
Playwright force-click), diagnostic screenshots, and sleeps. -/
inductive PEvent where
  | rotateCall (force force_reconnect result : Bool)
  | setCount (n : Nat)
  | incrCount
  | attemptStart (n : Nat)
  | openBrowser
  | closeBrowser
  | openContext
  | closeContext
  | clickDownload (js : Bool)
  | screenshot (name : String)
  | sleepP (secs : Nat)
deriving Repr, DecidableEq

/-- The mutable state threaded through the pipeline: the active `VPNManager`
state and world cursor, the shared class variable
`ImageProcessor.request_count`, the per-processor `daily_limit_detected`
flag, the number of currently open browsers and contexts (resource model),
and the files written by `_detect_image_format_and_save` (path with byte
size).  (The `Dewatermarker` holds a second `VPNManager` instance; none of
the properties proved here relates the two managers, so a single `vpn` field
stands for whichever manager the active component drives.) -/
structure PState where
  vpn : VpnState
  k : Nat
  request_count : Nat
  daily_limit_detected : Bool
  bOpen : Nat
  cOpen : Nat
  fs : List (String × Nat)
deriving Repr, DecidableEq

/-- Update the VPN part of the pipeline state after a `VPNManager` call. -/
def withVpn (st : PState) (s : VpnState) (k : Nat) : PState :=
  { st with vpn := s, k := k }

/-- The counter-based tail of `_maybe_rotate_ip` (lines 368-384): increment
the shared counter; when it reached `max_requests_before_rotation`, rotate
(standard rotation, `force_reconnect` forwarded) and reset the counter on
success, keeping the incremented counter on failure. -/
def maybe_rotate_normal (w : World) (force_reconnect : Bool) (st : PState) :
    Bool × PState × List PEvent :=
  if max_requests_before_rotation ≤ st.request_count + 1 then
    if (rotate_ip w none false 3 force_reconnect st.vpn st.k).1 then
      (true,
       { withVpn st (rotate_ip w none false 3 force_reconnect st.vpn st.k).2.1
           (rotate_ip w none false 3 force_reconnect st.vpn st.k).2.2.1 with
         request_count := 0 },
       [.incrCount, .rotateCall false force_reconnect true, .setCount 0])
    else
      (false,
       { withVpn st (rotate_ip w none false 3 force_reconnect st.vpn st.k).2.1
           (rotate_ip w none false 3 force_reconnect st.vpn st.k).2.2.1 with
         request_count := st.request_count + 1 },
       [.incrCount, .rotateCall false force_reconnect false])
  else (true, { st with request_count := st.request_count + 1 }, [.incrCount])

/-- `ImageProcessor._maybe_rotate_ip(force, force_reconnect)` (lines
341-384).  When forced or a daily limit was detected: forced rotation; on
success reset the shared counter and clear the flag.  Otherwise ensure the
VPN is connected (reconnecting if the status check fails; failure to connect
is logged and ignored) and run the counter-based check. -/
def maybe_rotate_ip (w : World) (force force_reconnect : Bool) (st : PState) :
    Bool × PState × List PEvent :=
  if force || st.daily_limit_detected then
    if (rotate_ip w none true 3 force_reconnect st.vpn st.k).1 then
      (true,
       { withVpn st (rotate_ip w none true 3 force_reconnect st.vpn st.k).2.1
           (rotate_ip w none true 3 force_reconnect st.vpn st.k).2.2.1 with
         request_count := 0, daily_limit_detected := false },
       [.rotateCall true force_reconnect true, .setCount 0])
    else
      (false,
       withVpn st (rotate_ip w none true 3 force_reconnect st.vpn st.k).2.1
         (rotate_ip w none true 3 force_reconnect st.vpn st.k).2.2.1,
       [.rotateCall true force_reconnect false])
  else
    maybe_rotate_normal w force_reconnect
      (if (verify_connection_status w st.vpn st.k).1 then
        withVpn st (verify_connection_status w st.vpn st.k).2.1
          (verify_connection_status w st.vpn st.k).2.2.1
      else
        withVpn st
          (connect w none (verify_connection_status w st.vpn st.k).2.1
            (verify_connection_status w st.vpn st.k).2.2.1).2.1
          (connect w none (verify_connection_status w st.vpn st.k).2.1
            (verify_connection_status w st.vpn st.k).2.2.1).2.2.1)

/-! ## Dewatermarker.process_images (src/core/dewatermarker.py) -/

/-- The rate-limit indicator terms of `Dewatermarker.process_images`
(lines 410-413). -/
def dw_limit_terms : List String :=
  ["rate", "limit", "429", "daily", "quota", "exceeded",
   "too many", "try again", "tomorrow", "subscription"]

/-- Oracle for one image of the batch: whether its path exists, the outcome
of the `ImageProcessor.process_image` call (`.error` = the call raised with
that message), and the value of the shared request counter when the call
returns (the nested counter updates are the business of `maybe_rotate_ip`
and are covered by its own theorems). -/
structure ImgOracle where
  fileExists : Bool
  outcome : Except String (Option String)
  countAfter : Nat
deriving Repr

/-- The pre-session rotation check of `Dewatermarker.process_images` (lines
370-381): when the shared counter reached the threshold and windscribe is
installed, force-rotate (max_retries=3); on success reset the counter and
sleep 5 s; on failure keep the counter and sleep 15 s. -/
def dw_pre_check (w : World) (threshold : Nat) (windscribe : Bool) (st : PState) :
    PState × List PEvent :=
  if threshold ≤ st.request_count ∧ windscribe = true then
    if (rotate_ip w none true 3 false st.vpn st.k).1 then
      ({ withVpn st (rotate_ip w none true 3 false st.vpn st.k).2.1
           (rotate_ip w none true 3 false st.vpn st.k).2.2.1 with
         request_count := 0 },
       [.rotateCall true false true, .setCount 0, .sleepP 5])
    else
      (withVpn st (rotate_ip w none true 3 false st.vpn st.k).2.1
         (rotate_ip w none true 3 false st.vpn st.k).2.2.1,
       [.rotateCall true false false, .sleepP 15])
  else (st, [])

/-- The per-image exception handler of `Dewatermarker.process_images` (lines
405-435): match the message against the rate-limit terms; on a match with
windscribe installed, force-rotate with `force_reconnect` exactly when the
message contains "try again tomorrow" or "daily limit", resetting the
counter on success (sleep 15 s) and waiting 45 s on failure; without
windscribe wait 45 s; for other errors wait 5 s. -/
def dw_handle_error (w : World) (windscribe : Bool) (msg : String) (st : PState) :
    PState × List PEvent :=
  if dw_limit_terms.any (fun t => strContains (strLower msg) t) then
    if windscribe then
      if (rotate_ip w none true 3
          (strContains (strLower msg) "try again tomorrow"
            || strContains (strLower msg) "daily limit") st.vpn st.k).1 then
        ({ withVpn st (rotate_ip w none true 3
              (strContains (strLower msg) "try again tomorrow"
                || strContains (strLower msg) "daily limit") st.vpn st.k).2.1
            (rotate_ip w none true 3
              (strContains (strLower msg) "try again tomorrow"
                || strContains (strLower msg) "daily limit") st.vpn st.k).2.2.1 with
          request_count := 0 },
         [.rotateCall true
            (strContains (strLower msg) "try again tomorrow"
              || strContains (strLower msg) "daily limit") true,
          .setCount 0, .sleepP 15])
      else
        (withVpn st (rotate_ip w none true 3
            (strContains (strLower msg) "try again tomorrow"
              || strContains (strLower msg) "daily limit") st.vpn st.k).2.1
          (rotate_ip w none true 3
            (strContains (strLower msg) "try again tomorrow"
              || strContains (strLower msg) "daily limit") st.vpn st.k).2.2.1,
         [.rotateCall true
            (strContains (strLower msg) "try again tomorrow"
              || strContains (strLower msg) "daily limit") false,
          .sleepP 45])
    else (st, [.sleepP 45])
  else (st, [.sleepP 5])

/-- The per-image loop of `Dewatermarker.process_images` (lines 361-436):
skip missing files; run the pre-session rotation check; run the processor
(abstracted by the oracle, which also fixes the shared counter value after
the nested call); collect returned paths; sleep 3 s after a completed call;
dispatch exceptions to `dw_handle_error`. -/
def dw_loop (w : World) (windscribe : Bool) (threshold : Nat) :
    List ImgOracle → PState → List String × PState × List PEvent
  | [], st => ([], st, [])
  | o :: rest, st =>
    if o.fileExists = false then dw_loop w windscribe threshold rest st
    else
      match o.outcome with
      | .ok (some p) =>
        (p :: (dw_loop w windscribe threshold rest
            { (dw_pre_check w threshold windscribe st).1 with
              request_count := o.countAfter }).1,
         (dw_loop w windscribe threshold rest
            { (dw_pre_check w threshold windscribe st).1 with
              request_count := o.countAfter }).2.1,
         (dw_pre_check w threshold windscribe st).2 ++ [.sleepP 3] ++
           (dw_loop w windscribe threshold rest
              { (dw_pre_check w threshold windscribe st).1 with
                request_count := o.countAfter }).2.2)
      | .ok none =>
        ((dw_loop w windscribe threshold rest
            { (dw_pre_check w threshold windscribe st).1 with
              request_count := o.countAfter }).1,
         (dw_loop w windscribe threshold rest
            { (dw_pre_check w threshold windscribe st).1 with
              request_count := o.countAfter }).2.1,
         (dw_pre_check w threshold windscribe st).2 ++ [.sleepP 3] ++
           (dw_loop w windscribe threshold rest
              { (dw_pre_check w threshold windscribe st).1 with
                request_count := o.countAfter }).2.2)
      | .error msg =>
        ((dw_loop w windscribe threshold rest
            (dw_handle_error w windscribe msg
              { (dw_pre_check w threshold windscribe st).1 with
                request_count := o.countAfter }).1).1,
         (dw_loop w windscribe threshold rest
            (dw_handle_error w windscribe msg
              { (dw_pre_check w threshold windscribe st).1 with
                request_count := o.countAfter }).1).2.1,
         (dw_pre_check w threshold windscribe st).2 ++
           ((dw_handle_error w windscribe msg
             { (dw_pre_check w threshold windscribe st).1 with
               request_count := o.countAfter }).2 ++
           (dw_loop w windscribe threshold rest
              (dw_handle_error w windscribe msg
                { (dw_pre_check w threshold windscribe st).1 with
                  request_count := o.countAfter }).1).2.2))

/-- `Dewatermarker.process_images` (lines 327-439).  An empty batch returns
immediately; otherwise the shared `ImageProcessor.request_count` is reset to
0 unconditionally (line 343), the VPN connection is established when
windscribe is installed but not connected (`rotate_ip(force=True)`, result
ignored, sleep 3 s), and the per-image loop runs. -/
def dw_process_images (w : World) (windscribe : Bool) (threshold : Nat)
    (imgs : List ImgOracle) (st : PState) : List String × PState × List PEvent :=
  if imgs.isEmpty then ([], st, [])
  else
    let st0 : PState := { st with request_count := 0 }
    let setup : PState × List PEvent :=
      if windscribe then
        if (verify_connection_status w st0.vpn st0.k).1 then
          (withVpn st0 (verify_connection_status w st0.vpn st0.k).2.1
            (verify_connection_status w st0.vpn st0.k).2.2.1, [])
        else
          (withVpn st0
            (rotate_ip w none true 3 false
              (verify_connection_status w st0.vpn st0.k).2.1
              (verify_connection_status w st0.vpn st0.k).2.2.1).2.1
            (rotate_ip w none true 3 false
              (verify_connection_status w st0.vpn st0.k).2.1
              (verify_connection_status w st0.vpn st0.k).2.2.1).2.2.1,
           [.rotateCall true false
              (rotate_ip w none true 3 false
                (verify_connection_status w st0.vpn st0.k).2.1
                (verify_connection_status w st0.vpn st0.k).2.2.1).1,
            .sleepP 3])
      else (st0, [])
    let r := dw_loop w windscribe threshold imgs setup.1
    (r.1, r.2.1, .setCount 0 :: (setup.2 ++ r.2.2))

/-! ## C1 and C7: writes to the shared request counter -/

/-- The boolean results of the `rotate_ip` calls recorded in a log. -/
def rotateResults (l : List PEvent) : List Bool :=
  l.filterMap fun e =>
    match e with
    | .rotateCall _ _ r => some r
    | _ => none

/-- Scan of a log checking that every `setCount 0` event is immediately
preceded by a `rotateCall` event that returned true; `prev` is the event
preceding the scanned suffix (`none` at the start of the log). -/
def resetsAux : Option PEvent → List PEvent → Bool
  | _, [] => true
  | prev, e :: rest =>
    (match e with
     | .setCount 0 =>
       (match prev with
        | some (.rotateCall _ _ true) => true
        | _ => false)
     | _ => true) && resetsAux (some e) rest

/-- Formalization of the C1 claim on one event log: every write of 0 to the
shared counter happens right after a `rotate_ip` call that returned true. -/
def resetsFollowRotate (l : List PEvent) : Bool := resetsAux none l

/-- The last event of `a`, or `p` when `a` is empty: the `prev` value with
which a scan of `a ++ b` reaches `b`. -/
def lastP (p : Option PEvent) : List PEvent → Option PEvent
  | [] => p
  | e :: rest => lastP (some e) rest

theorem resetsAux_append (b : List PEvent) :
    ∀ (a : List PEvent) (p : Option PEvent),
      resetsAux p (a ++ b) = (resetsAux p a && resetsAux (lastP p a) b) := by
  intro a
  induction a with
  | nil => intro p; simp [resetsAux, lastP]
  | cons e a ih =>
    intro p
    simp only [List.cons_append, List.append_eq, resetsAux, lastP]
    rw [ih (some e), Bool.and_assoc]

theorem resetsAux_good_append {a b : List PEvent}
    (ha : ∀ p, resetsAux p a = true) (hb : ∀ p, resetsAux p b = true) :
    ∀ p, resetsAux p (a ++ b) = true := by
  intro p
  rw [resetsAux_append, ha p, hb (lastP p a)]
  rfl

theorem resetsAux_maybe_rotate_normal (w : World) (fr : Bool) (st : PState) :
    ∀ p, resetsAux p (maybe_rotate_normal w fr st).2.2 = true := by
  intro p
  unfold maybe_rotate_normal
  split_ifs <;> rfl

theorem resetsAux_maybe_rotate_ip (w : World) (force fr : Bool) (st : PState) :
    ∀ p, resetsAux p (maybe_rotate_ip w force fr st).2.2 = true := by
  intro p
  unfold maybe_rotate_ip
  split_ifs
  · rfl
  · rfl
  · exact resetsAux_maybe_rotate_normal w fr _ p
  · exact resetsAux_maybe_rotate_normal w fr _ p

theorem resetsAux_sleep3 : ∀ p, resetsAux p [PEvent.sleepP 3] = true := fun _ => rfl

theorem resetsAux_dw_pre_check (w : World) (threshold : Nat) (ws : Bool) (st : PState) :
    ∀ p, resetsAux p (dw_pre_check w threshold ws st).2 = true := by
  intro p
  unfold dw_pre_check
  split_ifs <;> rfl

theorem resetsAux_dw_handle_error (w : World) (ws : Bool) (msg : String) (st : PState) :
    ∀ p, resetsAux p (dw_handle_error w ws msg st).2 = true := by
  intro p
  unfold dw_handle_error
  split_ifs <;> rfl

theorem resetsAux_dw_loop (w : World) (ws : Bool) (threshold : Nat) :
    ∀ (imgs : List ImgOracle) (st : PState) (p : Option PEvent),
      resetsAux p (dw_loop w ws threshold imgs st).2.2 = true := by
  intro imgs
  induction imgs with
  | nil => intro st p; rfl
  | cons o rest ih =>
    intro st p
    unfold dw_loop
    by_cases hex : o.fileExists = false
    · rw [if_pos hex]
      exact ih st p
    · rw [if_neg hex]
      cases ho : o.outcome with
      | ok v =>
        cases v <;>
          exact resetsAux_good_append
            (resetsAux_good_append (resetsAux_dw_pre_check w threshold ws st) resetsAux_sleep3)
            (fun q => ih _ q) p
      | error msg =>
        exact resetsAux_good_append (resetsAux_dw_pre_check w threshold ws st)
          (resetsAux_good_append (resetsAux_dw_handle_error w ws msg _) (fun q => ih _ q)) p

/-- C1 (amended): the only writes of 0 to the shared request counter that do
not immediately follow a successful `rotate_ip` are the single unconditional
reset at the top of `Dewatermarker.process_images` (line 343, executed for
every nonempty batch).  Part 1: every reset performed by
`ImageProcessor._maybe_rotate_ip` — the only place the downloader pipeline
writes 0 — immediately follows a `rotate_ip` call that returned true, for
every world, arguments and state.  Part 2: for every nonempty batch, the
event log of `Dewatermarker.process_images` starts with the unconditional
reset, and every later reset immediately follows a successful `rotate_ip`. -/
theorem C1_resets_follow_rotation :
    (∀ (w : World) (force fr : Bool) (st : PState),
        resetsFollowRotate (maybe_rotate_ip w force fr st).2.2 = true)
    ∧ (∀ (w : World) (ws : Bool) (threshold : Nat) (imgs : List ImgOracle) (st : PState),
        imgs.isEmpty = false →
        (dw_process_images w ws threshold imgs st).2.2.head? = some (.setCount 0)
        ∧ resetsFollowRotate (dw_process_images w ws threshold imgs st).2.2.tail = true) := by
  constructor
  · intro w force fr st
    exact resetsAux_maybe_rotate_ip w force fr st none
  · intro w ws threshold imgs st h
    have hne : ¬ imgs.isEmpty = true := by simp [h]
    constructor
    · simp only [dw_process_images]
      rw [if_neg hne]
      rfl
    · simp only [dw_process_images]
      rw [if_neg hne]
      show resetsAux none _ = true
      split_ifs <;>
        (refine resetsAux_good_append ?_
          (fun q => resetsAux_dw_loop w ws threshold imgs _ q) none
         intro p
         rfl)

/-- A pipeline state with the shared counter at 5 and everything else
initial. -/
def pstC1 : PState := ⟨⟨false, 0, 0⟩, 0, 5, false, 0, 0, []⟩

/-- Witness for C1 part 2 at a concrete batch: one image whose path does not
exist, windscribe absent — the log is exactly the initial reset. -/
theorem C1_resets_follow_rotation_witness :
    (dw_process_images wAllOk false 3 [⟨false, Except.ok none, 0⟩] pstC1).2.2.head? =
        some (.setCount 0)
    ∧ resetsFollowRotate
        (dw_process_images wAllOk false 3 [⟨false, Except.ok none, 0⟩] pstC1).2.2.tail = true :=
  C1_resets_follow_rotation.2 wAllOk false 3 [⟨false, Except.ok none, 0⟩] pstC1 rfl

/-- Counterexample to C1 as stated: processing a nonempty batch (here one
image whose file does not exist, with windscribe not installed) writes 0 to
the shared counter as its very first action — `ImageProcessor.request_count
= 0` at the top of `Dewatermarker.process_images` (line 343) — with no
`rotate_ip` call before it, so it is not true that every write of 0 happens
right after `rotate_ip` returned true. -/
theorem C1_counterexample :
    resetsFollowRotate
      (dw_process_images wAllOk false 3 [⟨false, Except.ok none, 0⟩] pstC1).2.2 = false := by
  decide

theorem maybe_rotate_normal_count (w : World) (fr : Bool) (st : PState)
    (h : ∀ b ∈ rotateResults (maybe_rotate_normal w fr st).2.2, b = true) :
    (maybe_rotate_normal w fr st).2.1.request_count ≤ max_requests_before_rotation := by
  unfold maybe_rotate_normal at h ⊢
  split_ifs at h ⊢ with h1 h2
  · simp [withVpn]
  · have := h false (by simp [rotateResults])
    simp at this
  · simp only []
    unfold max_requests_before_rotation at h1 ⊢
    omega

/-- C7 (amended): provided every rotation the check performs succeeds, the
shared counter never exceeds the rotation threshold at the moment the
pre-session budget check returns — both for
`ImageProcessor._maybe_rotate_ip` (threshold 3) and for the pre-session
check of `Dewatermarker.process_images` with windscribe installed.  (When a
rotation fails the code proceeds anyway keeping the incremented counter,
which can exceed the threshold: see the counterexample.) -/
theorem C7_counter_bounded_when_rotation_succeeds (w : World) (st : PState) :
    (∀ force fr : Bool,
      (∀ b ∈ rotateResults (maybe_rotate_ip w force fr st).2.2, b = true) →
      (maybe_rotate_ip w force fr st).2.1.request_count ≤ max_requests_before_rotation)
    ∧ (∀ threshold : Nat,
      (∀ b ∈ rotateResults (dw_pre_check w threshold true st).2, b = true) →
      (dw_pre_check w threshold true st).1.request_count ≤ threshold) := by
  constructor
  · intro force fr h
    unfold maybe_rotate_ip at h ⊢
    split_ifs at h ⊢ with h1 h2
    · simp [withVpn]
    · have := h false (by simp [rotateResults])
      simp at this
    · exact maybe_rotate_normal_count w fr _ h
    · exact maybe_rotate_normal_count w fr _ h
  · intro threshold h
    unfold dw_pre_check at h ⊢
    split_ifs at h ⊢ with h1 h2
    · simp [withVpn]
    · have := h false (by simp [rotateResults])
      simp at this
    · simp only []
      simp at h1
      omega

/-- A pipeline state with the shared counter at 2. -/
def pstC7 : PState := ⟨⟨false, 0, 0⟩, 0, 2, false, 0, 0, []⟩

/-- Witness for C7 at the all-succeeding world: starting from counter 2, a
non-forced check increments to the threshold, rotates successfully, and
returns with the counter at 0; the Dewatermarker pre-check at the threshold
likewise resets. -/
theorem C7_counter_bounded_witness :
    (maybe_rotate_ip wAllOk false false pstC7).2.1.request_count ≤
        max_requests_before_rotation
    ∧ (dw_pre_check wAllOk 3 true
        { pstC7 with request_count := 3 }).1.request_count ≤ 3 :=
  ⟨(C7_counter_bounded_when_rotation_succeeds wAllOk pstC7).1 false false (by decide),
   (C7_counter_bounded_when_rotation_succeeds wAllOk
      { pstC7 with request_count := 3 }).2 3 (by decide)⟩

/-- Counterexample to C7 as stated: in the all-failing world, starting from
counter 2, the first pre-session check increments to 3, fails to rotate, and
returns with the counter at the threshold; the next check increments to 4,
fails to rotate again, and returns with the counter at 4 — strictly above
the threshold 3. -/
theorem C7_counterexample :
    (maybe_rotate_ip wAllFail false false
        (maybe_rotate_ip wAllFail false false pstC7).2.1).2.1.request_count = 4
    ∧ max_requests_before_rotation <
      (maybe_rotate_ip wAllFail false false
          (maybe_rotate_ip wAllFail false false pstC7).2.1).2.1.request_count := by
  constructor <;> decide

/-! ## Paths, file system and _detect_image_format_and_save (C9) -/

/-- `os.path.basename`: the substring after the last slash. -/
def basename (p : String) : String :=
  String.mk ((p.toList.reverse.takeWhile (fun c => c ≠ '/')).reverse)

/-- `os.path.splitext` for the paths this pipeline builds: split at the last
dot of the final path component, leaving a component-initial dot alone
(hidden-file names such as ".jpg" are not split; the CPython corner case of
a dot directly after a slash deeper in the name is not modelled, as no path
of this program has that shape). -/
def splitext (p : String) : String × String :=
  let cs := p.toList
  let extRev := cs.reverse.takeWhile (fun c => c ≠ '.' && c ≠ '/')
  if extRev.length + 1 ≤ cs.length
      ∧ cs.getD (cs.length - extRev.length - 1) ' ' = '.'
      ∧ 0 < cs.length - extRev.length - 1 then
    (String.mk (cs.take (cs.length - extRev.length - 1)), String.mk ('.' :: extRev.reverse))
  else (p, "")

/-- Files written by the pipeline: path with byte size; a write prepends and
shadows. -/
def fsWrite (fs : List (String × Nat)) (p : String) (n : Nat) : List (String × Nat) :=
  (p, n) :: fs

/-- Size of the file at `p`, when present. -/
def fsLookup (fs : List (String × Nat)) (p : String) : Option Nat :=
  (fs.find? (fun e => e.1 == p)).map (fun e => e.2)

/-- `ImageProcessor._detect_image_format_and_save(binary_data, output_path)`
(lines 312-339).  `pil` is the oracle for `PIL.Image.open(BytesIO(data))`:
`none` when it raised (unidentifiable bytes), `some fmt` when it opened with
`img.format = fmt` (with `fmt = none` for an image object whose format is
unknown, defaulted to "jpeg" by the source).  On success the bytes are
written under the base path with the lowered format as new extension; when
PIL raised, the raw bytes are written to `output_path` itself (whose default
extension is ".jpg").  The write uses whatever byte count the download
produced — the function makes no emptiness check and deletes nothing. -/
def detect_image_format_and_save (pil : Option (Option String)) (size : Nat)
    (output_path : String) (fs : List (String × Nat)) : String × List (String × Nat) :=
  match pil with
  | some fmtOpt =>
    ((splitext output_path).1 ++ "." ++
       (match fmtOpt with
        | some f => (strLower f)
        | none => "jpeg"),
     fsWrite fs
       ((splitext output_path).1 ++ "." ++
         (match fmtOpt with
          | some f => (strLower f)
          | none => "jpeg")) size)
  | none => (output_path, fsWrite fs output_path size)

/-- The output path computed in `ImageProcessor.__init__` (lines 308-311):
`output_directory/<name without extension>_dewatermarked.jpg`. -/
def ip_output_file_path (input output_dir : String) : String :=
  output_dir ++ "/" ++ (splitext (basename input)).1 ++ "_dewatermarked.jpg"

/-! ## ImageProcessor.process_image: one attempt (lines 884-1268) -/

/-- The daily-limit phrases checked on initial page load (lines 928-936).
The source contains an accidental string-literal concatenation: the entries
for the second and third phrase are adjacent literals with no comma between
them and fuse into the single phrase "You’ve hit your daily limithit your
limit", so the list has six entries, not seven. -/
def daily_limit_phrases : List String :=
  ["daily limit",
   "You’ve hit your daily limithit your limit",
   "reached your limit",
   "try again tomorrow",
   "try again later",
   "too many requests"]

/-- The limit phrases checked when the download button reports disabled
(lines 1085-1096). -/
def limit_phrases : List String :=
  ["daily limit", "hit your limit", "reached your limit", "try again tomorrow",
   "try again later", "too many requests", "subscribe", "premium",
   "upgrade your plan", "upgrade to pro"]

/-- The rate-limit indicators of the outer retry handler (lines 1277-1280). -/
def rate_limit_indicators : List String :=
  ["limit", "quota", "exceeded", "429", "too many",
   "try again", "tomorrow", "later", "daily"]

/-- The limit terms matched against a failed download report (line 1172). -/
def download_failure_limit_terms : List String :=
  ["limit", "quota", "exceeded", "try again"]

/-- Result of a captured download: `download.failure()`, the PIL probe of
its bytes, and its byte count. -/
structure DownloadData where
  failure : Option String
  pil : Option (Option String)
  size : Nat
deriving Repr

/-- Oracle fixing the outcome of every browser step of one processing
attempt.  The `...Err` fields are `some message` when the corresponding
Playwright call raises.  `pageTextOnLoad` / `pageTextDisabled` are the
`document.body.innerText` evaluations; `buttonFound` is whether any download
button selector resolved within the 90 s bound; `imgSrcNoButton` /
`imgSrcOnFailure` are the largest-image fallback probes; `isDisabled` is the
download control state; `jsBtnFound` is whether the JavaScript
enable-and-click fallback found a button to click; `downloadResult` is the
`expect_download` outcome (`.error` = no download captured within the
timeout, raised when the `async with` block exits). -/
structure AttemptEnv where
  launchErr : Option String
  contextErr : Option String
  headersErr : Option String
  pageErr : Option String
  gotoErr : Option String
  pageTextOnLoad : String
  uploadErr : Option String
  buttonFound : Bool
  imgSrcNoButton : Option String
  isDisabled : Bool
  pageTextDisabled : String
  jsBtnFound : Bool
  downloadResult : Except String DownloadData
  imgSrcOnFailure : Option String
deriving Repr

/-- Browser/context resource bookkeeping.  Closing is truncating: closing an
already-closed resource is a no-op, matching the idempotent double closes of
the error paths. -/
def openB (st : PState) : PState := { st with bOpen := st.bOpen + 1 }

def openC (st : PState) : PState := { st with cOpen := st.cOpen + 1 }

def closeAll (st : PState) : PState := { st with bOpen := st.bOpen - 1, cOpen := st.cOpen - 1 }

/-- The message of the exception Playwright raises when a page of a closed
context is used (the fallback screenshots of the download-failure limit path
hit it, lines 1183-1184 and 1242-1243, after the context was closed at
1177-1178). -/
def targetClosedMsg : String := "Target page, context or browser has been closed"

/-- The raise at line 1123 after a limit was detected under a disabled
download control. -/
def hitLimitMsg : String := "Hit usage limit - IP rotated and will retry with new connection"

/-- The `expect_download` section of one attempt (lines 1150-1252), entered
after the disabled-state handling; `pre` carries the events of that
handling.  A captured download with no reported failure is persisted via
`_detect_image_format_and_save` and its path returned.  A reported failure
matching the limit terms sets the daily flag, closes the browser resources,
force-rotates and sleeps; the subsequent fallback screenshot then raises on
the closed page and that exception propagates (lines 1237-1252 re-raise it
after their own screenshot attempt also fails).  A failure without limit
terms falls back to a page screenshot, which is returned as the result
(directly when a candidate image was found on the page, line 1214, or by the
download-error handler at line 1249 after the raise at 1216).  A missing
download (timeout) propagates to the per-attempt handler. -/
def download_section (w : World) (env : AttemptEnv) (input output_dir : String)
    (st : PState) (pre : List PEvent) : Except String String × PState × List PEvent :=
  match env.downloadResult with
  | .error dmsg => (.error dmsg, st, pre ++ [.clickDownload false])
  | .ok dd =>
    match dd.failure with
    | some fmsg =>
      if download_failure_limit_terms.any (fun t => strContains (strLower fmsg) t) then
        (.error targetClosedMsg,
         (maybe_rotate_ip w true false
           (closeAll { st with daily_limit_detected := true })).2.1,
         pre ++ [.clickDownload false, .closeContext, .closeBrowser]
           ++ (maybe_rotate_ip w true false
             (closeAll { st with daily_limit_detected := true })).2.2
           ++ [.sleepP 10])
      else
        match env.imgSrcOnFailure with
        | some _ =>
          (.ok (output_dir ++ "/fallback_" ++ basename input),
           closeAll st,
           pre ++ [.clickDownload false,
             .screenshot (output_dir ++ "/fallback_" ++ basename input),
             .closeContext, .closeBrowser])
        | none =>
          (.ok (output_dir ++ "/fallback_" ++ basename input),
           closeAll st,
           pre ++ [.clickDownload false,
             .screenshot (output_dir ++ "/fallback_" ++ basename input),
             .screenshot (output_dir ++ "/fallback_" ++ basename input),
             .closeContext, .closeBrowser])
    | none =>
      (.ok (detect_image_format_and_save dd.pil dd.size
          (ip_output_file_path input output_dir) st.fs).1,
       closeAll { st with fs := (detect_image_format_and_save dd.pil dd.size
          (ip_output_file_path input output_dir) st.fs).2 },
       pre ++ [.clickDownload false, .closeContext, .closeBrowser])

/-- The disabled-control handling of one attempt (lines 1073-1148): when the
located control reports disabled, the page text is scanned against
`limit_phrases`; on a match the daily flag is set, the browser resources are
closed, a forced rotation runs, the code sleeps 15 s and raises
`hitLimitMsg` — without any click having been issued on the control.  With
no phrase match, the JavaScript fallback enables and clicks the control,
and the flow continues into `download_section`. -/
def disabled_then_download (w : World) (env : AttemptEnv) (input output_dir : String)
    (st : PState) : Except String String × PState × List PEvent :=
  if env.isDisabled then
    match limit_phrases.find?
        (fun ph => strContains (strLower env.pageTextDisabled) (strLower ph)) with
    | some _ =>
      (.error hitLimitMsg,
       (maybe_rotate_ip w true false
         (closeAll { st with daily_limit_detected := true })).2.1,
       [.screenshot (output_dir ++ "/disabled_button_check.png"),
        .closeContext, .closeBrowser]
         ++ (maybe_rotate_ip w true false
           (closeAll { st with daily_limit_detected := true })).2.2
         ++ [.sleepP 15])
    | none =>
      download_section w env input output_dir st
        ([.screenshot (output_dir ++ "/disabled_button_check.png")]
          ++ (if env.jsBtnFound then [.clickDownload true] else []))
  else download_section w env input output_dir st []

/-- The body of the inner `try` of one attempt (lines 921-1252): navigate,
check the on-load page text for daily-limit phrases (raising before upload
when one is present), screenshot, upload, locate the download control
(falling back to the largest-image screenshot or raising when absent), then
the disabled handling and the download. -/
def processAttemptBody (w : World) (env : AttemptEnv) (input output_dir : String)
    (st : PState) : Except String String × PState × List PEvent :=
  match env.gotoErr with
  | some m => (.error m, st, [])
  | none =>
    match daily_limit_phrases.find?
        (fun ph => strContains (strLower env.pageTextOnLoad) (strLower ph)) with
    | some ph =>
      (.error ("Daily limit detected: " ++ ph),
       { st with daily_limit_detected := true },
       [.screenshot (output_dir ++ "/daily_limit_initial.png")])
    | none =>
      match env.uploadErr with
      | some m => (.error m, st, [.screenshot (output_dir ++ "/initial_site.png")])
      | none =>
        if env.buttonFound = false then
          match env.imgSrcNoButton with
          | some _ =>
            (.ok (output_dir ++ "/screenshot_result_" ++ basename input),
             closeAll st,
             [.screenshot (output_dir ++ "/initial_site.png"),
              .screenshot (output_dir ++ "/no_download_button.png"),
              .screenshot (output_dir ++ "/screenshot_result_" ++ basename input),
              .closeContext, .closeBrowser])
          | none =>
            (.error "Download button not found after processing and no direct image found",
             st,
             [.screenshot (output_dir ++ "/initial_site.png"),
              .screenshot (output_dir ++ "/no_download_button.png")])
        else
          ((disabled_then_download w env input output_dir st).1,
           (disabled_then_download w env input output_dir st).2.1,
           .screenshot (output_dir ++ "/initial_site.png")
             :: (disabled_then_download w env input output_dir st).2.2)

/-- One full attempt of `process_image` (lines 884-1268): launch the
browser, create the context, set the extra headers, create the page — an
exception in any of these steps reaches the OUTER handler directly, leaving
whatever was already opened unclosed — then run the inner body; on an inner
exception the per-attempt handler takes a best-effort debug screenshot,
closes the context and the browser, and re-raises. -/
def processAttempt (w : World) (env : AttemptEnv) (input output_dir : String)
    (n : Nat) (st : PState) : Except String String × PState × List PEvent :=
  match env.launchErr with
  | some m => (.error m, st, [.attemptStart n])
  | none =>
    match env.contextErr with
    | some m => (.error m, openB st, [.attemptStart n, .openBrowser])
    | none =>
      match env.headersErr with
      | some m => (.error m, openC (openB st), [.attemptStart n, .openBrowser, .openContext])
      | none =>
        match env.pageErr with
        | some m => (.error m, openC (openB st), [.attemptStart n, .openBrowser, .openContext])
        | none =>
          match (processAttemptBody w env input output_dir (openC (openB st))).1 with
          | .ok p =>
            (.ok p,
             (processAttemptBody w env input output_dir (openC (openB st))).2.1,
             [.attemptStart n, .openBrowser, .openContext]
               ++ (processAttemptBody w env input output_dir (openC (openB st))).2.2)
          | .error m =>
            (.error m,
             closeAll (processAttemptBody w env input output_dir (openC (openB st))).2.1,
             [.attemptStart n, .openBrowser, .openContext]
               ++ (processAttemptBody w env input output_dir (openC (openB st))).2.2
               ++ (if 0 < (processAttemptBody w env input output_dir (openC (openB st))).2.1.cOpen
                   then [.screenshot (output_dir ++ "/error_" ++ toString (n - 1) ++ ".png")]
                   else [])
               ++ [.closeContext, .closeBrowser])

/-- Is the exception message rate-limited, per the outer handler? -/
def is_rate_limited (msg : String) : Bool :=
  rate_limit_indicators.any (fun t => strContains (strLower msg) t)

/-- The `force_reconnect` the outer handler passes to the rotation (line
1286): the message mentions "tomorrow" or "daily", or this is at least the
second failed attempt. -/
def outer_force_reconnect (msg : String) (retries : Nat) : Bool :=
  strContains (strLower msg) "tomorrow" || strContains (strLower msg) "daily"
    || decide (1 < retries)

/-- The outer exception handler of `process_image` (lines 1270-1305), after
`retries` has been incremented: classify the message; on a rate-limit match
force-rotate (with `outer_force_reconnect`) and wait 15/25 s (30/45 s when
the rotation failed); otherwise wait `5 * retries` seconds. -/
def handle_attempt_error (w : World) (msg : String) (retries : Nat) (st : PState) :
    PState × List PEvent :=
  if is_rate_limited msg then
    if (maybe_rotate_ip w true (outer_force_reconnect msg retries) st).1 then
      ((maybe_rotate_ip w true (outer_force_reconnect msg retries) st).2.1,
       (maybe_rotate_ip w true (outer_force_reconnect msg retries) st).2.2
         ++ [.sleepP (if retries = 1 then 15 else 25)])
    else
      ((maybe_rotate_ip w true (outer_force_reconnect msg retries) st).2.1,
       (maybe_rotate_ip w true (outer_force_reconnect msg retries) st).2.2
         ++ [.sleepP (if retries = 1 then 30 else 45)])
  else (st, [.sleepP (5 * retries)])

/-- The retry loop of `process_image` (`while retries < self.max_retries`,
lines 884-1313), as a fueled recursion: run one attempt; return its path on
success; on an exception increment `retries`, run the outer handler, and
return `None` once `retries` reached `max_retries` (4), looping otherwise. -/
def process_image_loop (w : World) (envs : Nat → AttemptEnv) (input output_dir : String) :
    Nat → Nat → PState → Option String × PState × List PEvent
  | 0, _, st => (none, st, [])
  | fuel + 1, retries, st =>
    if retries < IP_max_retries then
      match (processAttempt w (envs retries) input output_dir (retries + 1) st).1 with
      | .ok p =>
        (some p,
         (processAttempt w (envs retries) input output_dir (retries + 1) st).2.1,
         (processAttempt w (envs retries) input output_dir (retries + 1) st).2.2)
      | .error m =>
        if IP_max_retries ≤ retries + 1 then
          (none,
           (handle_attempt_error w m (retries + 1)
             (processAttempt w (envs retries) input output_dir (retries + 1) st).2.1).1,
           (processAttempt w (envs retries) input output_dir (retries + 1) st).2.2
             ++ (handle_attempt_error w m (retries + 1)
               (processAttempt w (envs retries) input output_dir (retries + 1) st).2.1).2)
        else
          ((process_image_loop w envs input output_dir fuel (retries + 1)
              (handle_attempt_error w m (retries + 1)
                (processAttempt w (envs retries) input output_dir (retries + 1) st).2.1).1).1,
           (process_image_loop w envs input output_dir fuel (retries + 1)
              (handle_attempt_error w m (retries + 1)
                (processAttempt w (envs retries) input output_dir (retries + 1) st).2.1).1).2.1,
           (processAttempt w (envs retries) input output_dir (retries + 1) st).2.2
             ++ ((handle_attempt_error w m (retries + 1)
               (processAttempt w (envs retries) input output_dir (retries + 1) st).2.1).2
             ++ (process_image_loop w envs input output_dir fuel (retries + 1)
                (handle_attempt_error w m (retries + 1)
                  (processAttempt w (envs retries) input output_dir (retries + 1) st).2.1).1).2.2))
    else (none, st, [])

/-- The VPN connection attempts at the start of `process_image` (lines
855-876): up to 3 tries of `connect(get_next_location())`, with a 2 s wait
between failed tries. -/
def ip_connect_attempts (w : World) : Nat → PState → PState × List PEvent
  | 0, st => (st, [])
  | n + 1, st =>
    if (connect w (some (get_next_location st.vpn).1) (get_next_location st.vpn).2 st.k).1 then
      (withVpn st
        (connect w (some (get_next_location st.vpn).1) (get_next_location st.vpn).2 st.k).2.1
        (connect w (some (get_next_location st.vpn).1) (get_next_location st.vpn).2 st.k).2.2.1,
       [])
    else
      ((ip_connect_attempts w n
          (withVpn st
            (connect w (some (get_next_location st.vpn).1) (get_next_location st.vpn).2 st.k).2.1
            (connect w (some (get_next_location st.vpn).1)
              (get_next_location st.vpn).2 st.k).2.2.1)).1,
       (if 0 < n then [PEvent.sleepP 2] else [])
         ++ (ip_connect_attempts w n
            (withVpn st
              (connect w (some (get_next_location st.vpn).1) (get_next_location st.vpn).2 st.k).2.1
              (connect w (some (get_next_location st.vpn).1)
                (get_next_location st.vpn).2 st.k).2.2.1)).2)

/-- The tail of `process_image` after the VPN prelude: run the pre-session
budget check `_maybe_rotate_ip()` (default arguments) and then the retry
loop from `retries = 0`. -/
def process_image_post_vpn (w : World) (envs : Nat → AttemptEnv) (input output_dir : String)
    (st : PState) : Option String × PState × List PEvent :=
  ((process_image_loop w envs input output_dir (IP_max_retries + 1) 0
      (maybe_rotate_ip w false false st).2.1).1,
   (process_image_loop w envs input output_dir (IP_max_retries + 1) 0
      (maybe_rotate_ip w false false st).2.1).2.1,
   (maybe_rotate_ip w false false st).2.2
     ++ (process_image_loop w envs input output_dir (IP_max_retries + 1) 0
        (maybe_rotate_ip w false false st).2.1).2.2)

/-- `ImageProcessor.process_image(playwright)` (lines 842-1313): verify the
VPN connection, reconnecting with up to 3 location attempts when it is down,
run the pre-session budget check, then the retry loop. -/
def process_image (w : World) (envs : Nat → AttemptEnv) (input output_dir : String)
    (st : PState) : Option String × PState × List PEvent :=
  if (verify_connection_status w st.vpn st.k).1 then
    process_image_post_vpn w envs input output_dir
      (withVpn st (verify_connection_status w st.vpn st.k).2.1
        (verify_connection_status w st.vpn st.k).2.2.1)
  else
    ((process_image_post_vpn w envs input output_dir
        (ip_connect_attempts w 3
          (withVpn st (verify_connection_status w st.vpn st.k).2.1
            (verify_connection_status w st.vpn st.k).2.2.1)).1).1,
     (process_image_post_vpn w envs input output_dir
        (ip_connect_attempts w 3
          (withVpn st (verify_connection_status w st.vpn st.k).2.1
            (verify_connection_status w st.vpn st.k).2.2.1)).1).2.1,
     (ip_connect_attempts w 3
        (withVpn st (verify_connection_status w st.vpn st.k).2.1
          (verify_connection_status w st.vpn st.k).2.2.1)).2
       ++ (process_image_post_vpn w envs input output_dir
          (ip_connect_attempts w 3
            (withVpn st (verify_connection_status w st.vpn st.k).2.1
              (verify_connection_status w st.vpn st.k).2.2.1)).1).2.2)

/-! ## Event counting helpers for the session claims -/

/-- Number of processing attempts started in a log. -/
def attemptCount (l : List PEvent) : Nat :=
  l.countP fun e =>
    match e with
    | .attemptStart _ => true
    | _ => false

/-- Number of clicks issued on the download control in a log. -/
def clickCount (l : List PEvent) : Nat :=
  l.countP fun e =>
    match e with
    | .clickDownload _ => true
    | _ => false

/-- The `force_reconnect` arguments of the rotation calls in a log. -/
def rotateFRs (l : List PEvent) : List Bool :=
  l.filterMap fun e =>
    match e with
    | .rotateCall _ fr _ => some fr
    | _ => none

theorem attemptCount_append (a b : List PEvent) :
    attemptCount (a ++ b) = attemptCount a + attemptCount b := by
  simp [attemptCount, List.countP_append]

theorem clickCount_append (a b : List PEvent) :
    clickCount (a ++ b) = clickCount a + clickCount b := by
  simp [clickCount, List.countP_append]

theorem attemptCount_maybe_rotate (w : World) (f fr : Bool) (st : PState) :
    attemptCount (maybe_rotate_ip w f fr st).2.2 = 0 := by
  unfold maybe_rotate_ip maybe_rotate_normal
  split_ifs <;> rfl

theorem clickCount_maybe_rotate (w : World) (f fr : Bool) (st : PState) :
    clickCount (maybe_rotate_ip w f fr st).2.2 = 0 := by
  unfold maybe_rotate_ip maybe_rotate_normal
  split_ifs <;> rfl

theorem rotateFRs_maybe_rotate_forced (w : World) (fr : Bool) (st : PState) :
    rotateFRs (maybe_rotate_ip w true fr st).2.2 = [fr] := by
  unfold maybe_rotate_ip
  split_ifs with h1 h2
  · rfl
  · rfl
  all_goals simp at h1

theorem attemptCount_sleep (n : Nat) : attemptCount [PEvent.sleepP n] = 0 := rfl

theorem attemptCount_handle (w : World) (msg : String) (r : Nat) (st : PState) :
    attemptCount (handle_attempt_error w msg r st).2 = 0 := by
  unfold handle_attempt_error
  split_ifs <;>
    simp [attemptCount_append, attemptCount_maybe_rotate, attemptCount_sleep]

/-- `maybe_rotate_ip` touches only the VPN part, the counter and the daily
flag of the state. -/
theorem maybe_rotate_frame (w : World) (f fr : Bool) (st : PState) :
    (maybe_rotate_ip w f fr st).2.1.bOpen = st.bOpen
    ∧ (maybe_rotate_ip w f fr st).2.1.cOpen = st.cOpen
    ∧ (maybe_rotate_ip w f fr st).2.1.fs = st.fs := by
  unfold maybe_rotate_ip maybe_rotate_normal
  split_ifs <;> simp [withVpn]

theorem handle_frame (w : World) (msg : String) (r : Nat) (st : PState) :
    (handle_attempt_error w msg r st).1.bOpen = st.bOpen
    ∧ (handle_attempt_error w msg r st).1.cOpen = st.cOpen := by
  unfold handle_attempt_error
  split_ifs <;>
    first
      | exact ⟨(maybe_rotate_frame w true _ st).1, (maybe_rotate_frame w true _ st).2.1⟩
      | exact ⟨rfl, rfl⟩

theorem ip_connect_frame (w : World) :
    ∀ (n : Nat) (st : PState),
      (ip_connect_attempts w n st).1.bOpen = st.bOpen
      ∧ (ip_connect_attempts w n st).1.cOpen = st.cOpen
      ∧ (ip_connect_attempts w n st).1.fs = st.fs
      ∧ attemptCount (ip_connect_attempts w n st).2 = 0 := by
  intro n
  induction n with
  | zero => intro st; exact ⟨rfl, rfl, rfl, rfl⟩
  | succ m ih =>
    intro st
    unfold ip_connect_attempts
    by_cases h1 : (connect w (some (get_next_location st.vpn).1)
        (get_next_location st.vpn).2 st.k).1 = true
    · rw [if_pos h1]
      exact ⟨rfl, rfl, rfl, rfl⟩
    · rw [if_neg h1]
      refine ⟨(ih _).1, (ih _).2.1, (ih _).2.2.1, ?_⟩
      rw [attemptCount_append, (ih _).2.2.2]
      split_ifs <;> rfl

/-! ## C2: browser/context release on every exit path -/

theorem download_section_resources (w : World) (env : AttemptEnv) (input outdir : String)
    (st : PState) (pre : List PEvent) (hb : st.bOpen = 1) (hc : st.cOpen = 1) :
    ((download_section w env input outdir st pre).2.1.bOpen = 0
      ∧ (download_section w env input outdir st pre).2.1.cOpen = 0)
    ∨ ((download_section w env input outdir st pre).2.1.bOpen = 1
      ∧ (download_section w env input outdir st pre).2.1.cOpen = 1
      ∧ ∃ m, (download_section w env input outdir st pre).1 = Except.error m) := by
  unfold download_section
  cases hdr : env.downloadResult with
  | error dmsg => right; exact ⟨hb, hc, dmsg, rfl⟩
  | ok dd =>
    dsimp only
    cases hf : dd.failure with
    | some fmsg =>
      dsimp only
      split_ifs with hlim
      · left
        constructor
        · rw [(maybe_rotate_frame w true false _).1]
          simp [closeAll, hb]
        · rw [(maybe_rotate_frame w true false _).2.1]
          simp [closeAll, hc]
      · cases env.imgSrcOnFailure <;>
          exact Or.inl ⟨by simp [closeAll, hb], by simp [closeAll, hc]⟩
    | none =>
      dsimp only
      exact Or.inl ⟨by simp [closeAll, hb], by simp [closeAll, hc]⟩

theorem disabled_then_download_resources (w : World) (env : AttemptEnv)
    (input outdir : String) (st : PState) (hb : st.bOpen = 1) (hc : st.cOpen = 1) :
    ((disabled_then_download w env input outdir st).2.1.bOpen = 0
      ∧ (disabled_then_download w env input outdir st).2.1.cOpen = 0)
    ∨ ((disabled_then_download w env input outdir st).2.1.bOpen = 1
      ∧ (disabled_then_download w env input outdir st).2.1.cOpen = 1
      ∧ ∃ m, (disabled_then_download w env input outdir st).1 = Except.error m) := by
  unfold disabled_then_download
  by_cases hdis : env.isDisabled = true
  · rw [if_pos hdis]
    cases hfind : limit_phrases.find?
        (fun ph => strContains (strLower env.pageTextDisabled) (strLower ph)) with
    | some ph =>
      dsimp only
      left
      constructor
      · rw [(maybe_rotate_frame w true false _).1]
        simp [closeAll, hb]
      · rw [(maybe_rotate_frame w true false _).2.1]
        simp [closeAll, hc]
    | none =>
      dsimp only
      exact download_section_resources w env input outdir st _ hb hc
  · rw [if_neg hdis]
    exact download_section_resources w env input outdir st _ hb hc

theorem processAttemptBody_resources (w : World) (env : AttemptEnv)
    (input outdir : String) (st : PState) (hb : st.bOpen = 1) (hc : st.cOpen = 1) :
    ((processAttemptBody w env input outdir st).2.1.bOpen = 0
      ∧ (processAttemptBody w env input outdir st).2.1.cOpen = 0)
    ∨ ((processAttemptBody w env input outdir st).2.1.bOpen = 1
      ∧ (processAttemptBody w env input outdir st).2.1.cOpen = 1
      ∧ ∃ m, (processAttemptBody w env input outdir st).1 = Except.error m) := by
  unfold processAttemptBody
  cases hg : env.gotoErr with
  | some m => exact Or.inr ⟨hb, hc, m, rfl⟩
  | none =>
    try dsimp only
    cases hl : daily_limit_phrases.find?
        (fun ph => strContains (strLower env.pageTextOnLoad) (strLower ph)) with
    | some ph => exact Or.inr ⟨hb, hc, _, rfl⟩
    | none =>
      try dsimp only
      cases hu : env.uploadErr with
      | some m => exact Or.inr ⟨hb, hc, m, rfl⟩
      | none =>
        try dsimp only
        by_cases hbt : env.buttonFound = false
        · rw [if_pos hbt]
          try dsimp only
          cases hi : env.imgSrcNoButton with
          | some p => exact Or.inl ⟨by simp [closeAll, hb], by simp [closeAll, hc]⟩
          | none => exact Or.inr ⟨hb, hc, _, rfl⟩
        · rw [if_neg hbt]
          rcases disabled_then_download_resources w env input outdir st hb hc with
            h | ⟨h1, h2, m, h3⟩
          · exact Or.inl h
          · exact Or.inr ⟨h1, h2, m, h3⟩

theorem processAttempt_balanced (w : World) (env : AttemptEnv) (input outdir : String)
    (n : Nat) (st : PState) (hctx : env.contextErr = none) (hhdr : env.headersErr = none)
    (hpg : env.pageErr = none) (hb : st.bOpen = 0) (hc : st.cOpen = 0) :
    (processAttempt w env input outdir n st).2.1.bOpen = 0
    ∧ (processAttempt w env input outdir n st).2.1.cOpen = 0 := by
  unfold processAttempt
  cases hla : env.launchErr with
  | some m => exact ⟨hb, hc⟩
  | none =>
    dsimp only
    rw [hctx, hhdr, hpg]
    dsimp only
    have hob : (openC (openB st)).bOpen = 1 := by simp [openB, openC, hb]
    have hoc : (openC (openB st)).cOpen = 1 := by simp [openB, openC, hc]
    rcases processAttemptBody_resources w env input outdir (openC (openB st)) hob hoc with
      ⟨h1, h2⟩ | ⟨h1, h2, m, h3⟩
    · cases hr : (processAttemptBody w env input outdir (openC (openB st))).1 with
      | ok p => exact ⟨h1, h2⟩
      | error m => exact ⟨by simp [closeAll, h1], by simp [closeAll, h2]⟩
    · rw [h3]
      exact ⟨by simp [closeAll, h1], by simp [closeAll, h2]⟩

theorem process_image_loop_balanced (w : World) (envs : Nat → AttemptEnv)
    (input outdir : String)
    (henv : ∀ i, (envs i).contextErr = none ∧ (envs i).headersErr = none
      ∧ (envs i).pageErr = none) :
    ∀ (fuel retries : Nat) (st : PState), st.bOpen = 0 → st.cOpen = 0 →
      (process_image_loop w envs input outdir fuel retries st).2.1.bOpen = 0
      ∧ (process_image_loop w envs input outdir fuel retries st).2.1.cOpen = 0 := by
  intro fuel
  induction fuel with
  | zero => intro retries st hb hc; exact ⟨hb, hc⟩
  | succ f ih =>
    intro retries st hb hc
    unfold process_image_loop
    by_cases hlt : retries < IP_max_retries
    · rw [if_pos hlt]
      have hbal := processAttempt_balanced w (envs retries) input outdir (retries + 1) st
        (henv retries).1 (henv retries).2.1 (henv retries).2.2 hb hc
      cases hr : (processAttempt w (envs retries) input outdir (retries + 1) st).1 with
      | ok p => exact hbal
      | error m =>
        dsimp only
        by_cases hmax : IP_max_retries ≤ retries + 1
        · rw [if_pos hmax]
          exact ⟨by rw [(handle_frame w m (retries + 1) _).1]; exact hbal.1,
            by rw [(handle_frame w m (retries + 1) _).2]; exact hbal.2⟩
        · rw [if_neg hmax]
          exact ih (retries + 1) _
            (by rw [(handle_frame w m (retries + 1) _).1]; exact hbal.1)
            (by rw [(handle_frame w m (retries + 1) _).2]; exact hbal.2)
    · rw [if_neg hlt]
      exact ⟨hb, hc⟩

/-- C2 (amended): provided no attempt fails between the browser launch and
the creation of its page (context creation, extra-header configuration and
page creation all succeed), every run of `process_image` returns — with a
path, `None`, or after any sequence of attempt exceptions — with every
browser and every context it opened closed again.  (An exception raised in
that setup window is caught only by the outer per-attempt handler, which
closes nothing, leaking the launched browser: see the counterexample.) -/
theorem C2_resources_released (w : World) (envs : Nat → AttemptEnv)
    (input outdir : String) (st : PState)
    (henv : ∀ i, (envs i).contextErr = none ∧ (envs i).headersErr = none
      ∧ (envs i).pageErr = none)
    (hb : st.bOpen = 0) (hc : st.cOpen = 0) :
    (process_image w envs input outdir st).2.1.bOpen = 0
    ∧ (process_image w envs input outdir st).2.1.cOpen = 0 := by
  unfold process_image process_image_post_vpn
  split_ifs with hv
  · exact process_image_loop_balanced w envs input outdir henv _ 0 _
      (by rw [(maybe_rotate_frame w false false _).1]; exact hb)
      (by rw [(maybe_rotate_frame w false false _).2.1]; exact hc)
  · exact process_image_loop_balanced w envs input outdir henv _ 0 _
      (by rw [(maybe_rotate_frame w false false _).1, (ip_connect_frame w 3 _).1]; exact hb)
      (by rw [(maybe_rotate_frame w false false _).2.1, (ip_connect_frame w 3 _).2.1]; exact hc)

/-- The initial pipeline state: fresh VPN manager, counter 0, no resources
open, nothing written. -/
def pst0 : PState := ⟨⟨false, 0, 0⟩, 0, 0, false, 0, 0, []⟩

/-- An attempt environment in which every step succeeds: the page loads with
no limit phrase, the upload works, the download control is found enabled,
and the download is captured as a 1024-byte PNG. -/
def envOk : AttemptEnv :=
  { launchErr := none, contextErr := none, headersErr := none, pageErr := none,
    gotoErr := none, pageTextOnLoad := "welcome", uploadErr := none,
    buttonFound := true, imgSrcNoButton := none, isDisabled := false,
    pageTextDisabled := "", jsBtnFound := false,
    downloadResult := .ok ⟨none, some (some "PNG"), 1024⟩, imgSrcOnFailure := none }

/-- An attempt environment whose `browser.new_context` call raises. -/
def envCtxFail : AttemptEnv := { envOk with contextErr := some "connection lost during setup" }

/-- Witness for C2 at a fully succeeding concrete run. -/
theorem C2_resources_released_witness :
    (process_image wAllOk (fun _ => envOk) "img.jpeg" "out" pst0).2.1.bOpen = 0
    ∧ (process_image wAllOk (fun _ => envOk) "img.jpeg" "out" pst0).2.1.cOpen = 0 :=
  C2_resources_released wAllOk (fun _ => envOk) "img.jpeg" "out" pst0
    (fun _ => ⟨rfl, rfl, rfl⟩) rfl rfl

/-- Counterexample to C2 as stated: when `browser.new_context` raises (an
exception between the launch and the inner `try`), the exception reaches the
outer handler, which closes nothing; after the four attempts the run returns
`None` to the caller with four launched browsers still open. -/
theorem C2_counterexample :
    (process_image wAllOk (fun _ => envCtxFail) "img.jpeg" "out" pst0).1 = none
    ∧ (process_image wAllOk (fun _ => envCtxFail) "img.jpeg" "out" pst0).2.1.bOpen = 4 := by
  constructor <;> decide

/-! ## C5: at most four processing attempts -/

theorem attemptCount_nil : attemptCount [] = 0 := rfl

theorem attemptCount_cons (e : PEvent) (l : List PEvent) :
    attemptCount (e :: l) =
      (match e with
       | PEvent.attemptStart _ => 1
       | _ => 0) + attemptCount l := by
  cases e <;> simp [attemptCount, List.countP_cons] <;> omega

theorem clickCount_nil : clickCount [] = 0 := rfl

theorem clickCount_cons (e : PEvent) (l : List PEvent) :
    clickCount (e :: l) =
      (match e with
       | PEvent.clickDownload _ => 1
       | _ => 0) + clickCount l := by
  cases e <;> simp [clickCount, List.countP_cons] <;> omega

theorem attemptCount_download_section (w : World) (env : AttemptEnv)
    (input outdir : String) (st : PState) (pre : List PEvent) :
    attemptCount (download_section w env input outdir st pre).2.2 = attemptCount pre := by
  unfold download_section
  cases hdr : env.downloadResult with
  | error d => simp [attemptCount_append, attemptCount_cons, attemptCount_nil]
  | ok dd =>
    dsimp only
    cases hf : dd.failure with
    | some fmsg =>
      dsimp only
      split_ifs
      · simp [attemptCount_append, attemptCount_maybe_rotate, attemptCount_cons,
          attemptCount_nil]
      · cases env.imgSrcOnFailure <;>
          simp [attemptCount_append, attemptCount_cons, attemptCount_nil]
    | none =>
      dsimp only
      simp [attemptCount_append, attemptCount_cons, attemptCount_nil]

theorem attemptCount_disabled (w : World) (env : AttemptEnv)
    (input outdir : String) (st : PState) :
    attemptCount (disabled_then_download w env input outdir st).2.2 = 0 := by
  unfold disabled_then_download
  by_cases hdis : env.isDisabled = true
  · rw [if_pos hdis]
    cases hfind : limit_phrases.find?
        (fun ph => strContains (strLower env.pageTextDisabled) (strLower ph)) with
    | some ph =>
      dsimp only
      simp [attemptCount_append, attemptCount_maybe_rotate, attemptCount_cons,
        attemptCount_nil]
    | none =>
      dsimp only
      rw [attemptCount_download_section]
      split_ifs <;> rfl
  · rw [if_neg hdis]
    rw [attemptCount_download_section]
    rfl

theorem attemptCount_body (w : World) (env : AttemptEnv)
    (input outdir : String) (st : PState) :
    attemptCount (processAttemptBody w env input outdir st).2.2 = 0 := by
  unfold processAttemptBody
  cases hg : env.gotoErr with
  | some m => rfl
  | none =>
    try dsimp only
    cases hl : daily_limit_phrases.find?
        (fun ph => strContains (strLower env.pageTextOnLoad) (strLower ph)) with
    | some ph => rfl
    | none =>
      try dsimp only
      cases hu : env.uploadErr with
      | some m => rfl
      | none =>
        try dsimp only
        by_cases hbt : env.buttonFound = false
        · rw [if_pos hbt]
          try dsimp only
          cases env.imgSrcNoButton <;> rfl
        · rw [if_neg hbt]
          try dsimp only
          simp [attemptCount_cons, attemptCount_disabled]

theorem attemptCount_attempt (w : World) (env : AttemptEnv) (input outdir : String)
    (n : Nat) (st : PState) :
    attemptCount (processAttempt w env input outdir n st).2.2 = 1 := by
  unfold processAttempt
  cases env.launchErr with
  | some m => rfl
  | none =>
    cases env.contextErr with
    | some m => rfl
    | none =>
      cases env.headersErr with
      | some m => rfl
      | none =>
        cases env.pageErr with
        | some m => rfl
        | none =>
          cases hr : (processAttemptBody w env input outdir (openC (openB st))).1 with
          | ok p =>
            simp [attemptCount_cons, attemptCount_append, attemptCount_body]
          | error m =>
            split_ifs <;>
              simp [attemptCount_cons, attemptCount_append, attemptCount_body,
                attemptCount_nil]

theorem process_image_loop_attempts (w : World) (envs : Nat → AttemptEnv)
    (input outdir : String) :
    ∀ (fuel retries : Nat) (st : PState),
      retries ≤ IP_max_retries → IP_max_retries ≤ fuel + retries →
      attemptCount (process_image_loop w envs input outdir fuel retries st).2.2
          ≤ IP_max_retries - retries
      ∧ ((process_image_loop w envs input outdir fuel retries st).1 = none →
          attemptCount (process_image_loop w envs input outdir fuel retries st).2.2
            = IP_max_retries - retries) := by
  intro fuel
  induction fuel with
  | zero =>
    intro retries st h1 h2
    have : retries = IP_max_retries := by omega
    unfold process_image_loop
    constructor
    · rw [attemptCount_nil]; omega
    · intro _; rw [attemptCount_nil]; omega
  | succ f ih =>
    intro retries st h1 h2
    unfold process_image_loop
    by_cases hlt : retries < IP_max_retries
    · rw [if_pos hlt]
      cases hr : (processAttempt w (envs retries) input outdir (retries + 1) st).1 with
      | ok p =>
        dsimp only
        constructor
        · rw [attemptCount_attempt]; omega
        · intro hcon; exact absurd hcon (by simp)
      | error m =>
        dsimp only
        by_cases hmax : IP_max_retries ≤ retries + 1
        · rw [if_pos hmax]
          have : attemptCount
              ((processAttempt w (envs retries) input outdir (retries + 1) st).2.2
                ++ (handle_attempt_error w m (retries + 1)
                  (processAttempt w (envs retries) input outdir (retries + 1) st).2.1).2) = 1 := by
            rw [attemptCount_append, attemptCount_attempt, attemptCount_handle]
          constructor
          · rw [this]; omega
          · intro _; rw [this]; omega
        · rw [if_neg hmax]
          have hrec := ih (retries + 1)
            (handle_attempt_error w m (retries + 1)
              (processAttempt w (envs retries) input outdir (retries + 1) st).2.1).1
            (by omega) (by omega)
          have hcnt : attemptCount
              ((processAttempt w (envs retries) input outdir (retries + 1) st).2.2
                ++ ((handle_attempt_error w m (retries + 1)
                    (processAttempt w (envs retries) input outdir (retries + 1) st).2.1).2
                  ++ (process_image_loop w envs input outdir f (retries + 1)
                    (handle_attempt_error w m (retries + 1)
                      (processAttempt w (envs retries) input outdir
                        (retries + 1) st).2.1).1).2.2)) =
              1 + attemptCount (process_image_loop w envs input outdir f (retries + 1)
                (handle_attempt_error w m (retries + 1)
                  (processAttempt w (envs retries) input outdir (retries + 1) st).2.1).1).2.2 := by
            rw [attemptCount_append, attemptCount_append, attemptCount_attempt,
              attemptCount_handle]
            omega
          constructor
          · rw [hcnt]
            have := hrec.1
            omega
          · intro hn
            rw [hcnt, hrec.2 hn]
            omega
    · rw [if_neg hlt]
      have : retries = IP_max_retries := by omega
      constructor
      · rw [attemptCount_nil]; omega
      · intro _; rw [attemptCount_nil]; omega

/-- C5: `process_image` (whose `max_retries` is 4) makes at most 4
processing attempts, and whenever it returns `None` — i.e. the Job
terminates as a failure after its retries are exhausted — exactly 4 attempts
were made; no execution makes a fifth attempt.  (The first conjunct bounds
every run, including ones that succeed at the fourth attempt.) -/
theorem C5_at_most_four_attempts (w : World) (envs : Nat → AttemptEnv)
    (input output_dir : String) (st : PState) :
    attemptCount (process_image w envs input output_dir st).2.2 ≤ IP_max_retries
    ∧ ((process_image w envs input output_dir st).1 = none →
        attemptCount (process_image w envs input output_dir st).2.2 = IP_max_retries) := by
  have hloop := process_image_loop_attempts w envs input output_dir (IP_max_retries + 1) 0
  unfold process_image process_image_post_vpn
  split_ifs with hv
  · have h := hloop (maybe_rotate_ip w false false
      (withVpn st (verify_connection_status w st.vpn st.k).2.1
        (verify_connection_status w st.vpn st.k).2.2.1)).2.1 (by omega) (by omega)
    constructor
    · rw [attemptCount_append, attemptCount_maybe_rotate]
      have := h.1
      omega
    · intro hn
      rw [attemptCount_append, attemptCount_maybe_rotate, h.2 hn]
      omega
  · have h := hloop (maybe_rotate_ip w false false
      (ip_connect_attempts w 3
        (withVpn st (verify_connection_status w st.vpn st.k).2.1
          (verify_connection_status w st.vpn st.k).2.2.1)).1).2.1 (by omega) (by omega)
    constructor
    · rw [attemptCount_append, attemptCount_append, (ip_connect_frame w 3 _).2.2.2,
        attemptCount_maybe_rotate]
      have := h.1
      omega
    · intro hn
      rw [attemptCount_append, attemptCount_append, (ip_connect_frame w 3 _).2.2.2,
        attemptCount_maybe_rotate, h.2 hn]
      omega

/-- Witness for C5: a run whose four attempts all fail returns `None` having
made exactly 4 attempts. -/
theorem C5_at_most_four_attempts_witness :
    attemptCount (process_image wAllOk (fun _ => envCtxFail) "img.jpeg" "out" pst0).2.2 =
      IP_max_retries :=
  (C5_at_most_four_attempts wAllOk (fun _ => envCtxFail) "img.jpeg" "out" pst0).2 (by decide)

/-! ## C4: disabled control with a daily-limit phrase never clicks -/

/-- C4: in any attempt that reaches the download control with the page
loading cleanly (no goto failure, no daily-limit phrase on load, upload ok,
control found), if the control reports disabled and the disabled-state page
text contains the phrase "daily limit", the attempt raises the usage-limit
outcome and never issues a click on the download control. -/
theorem C4_no_click_on_daily_limit (w : World) (env : AttemptEnv)
    (input output_dir : String) (st : PState)
    (h1 : env.gotoErr = none)
    (h2 : daily_limit_phrases.find?
        (fun ph => strContains (strLower env.pageTextOnLoad) (strLower ph)) = none)
    (h3 : env.uploadErr = none)
    (h4 : env.buttonFound = true)
    (h5 : env.isDisabled = true)
    (h6 : strContains (strLower env.pageTextDisabled) (strLower "daily limit") = true) :
    (processAttemptBody w env input output_dir st).1 = .error hitLimitMsg
    ∧ clickCount (processAttemptBody w env input output_dir st).2.2 = 0 := by
  have hfx : limit_phrases.find?
      (fun ph => strContains (strLower env.pageTextDisabled) (strLower ph))
      = some "daily limit" := by
    have h : (fun ph => strContains (strLower env.pageTextDisabled) (strLower ph))
        "daily limit" = true := h6
    exact List.find?_cons_of_pos _ h
  have hdis : disabled_then_download w env input output_dir st =
      (.error hitLimitMsg,
       (maybe_rotate_ip w true false
         (closeAll { st with daily_limit_detected := true })).2.1,
       [.screenshot (output_dir ++ "/disabled_button_check.png"),
        .closeContext, .closeBrowser]
         ++ (maybe_rotate_ip w true false
           (closeAll { st with daily_limit_detected := true })).2.2
         ++ [.sleepP 15]) := by
    unfold disabled_then_download
    rw [if_pos h5, hfx]
  unfold processAttemptBody
  rw [h1]
  dsimp only
  rw [h2]
  dsimp only
  rw [h3]
  dsimp only
  rw [if_neg (by simp [h4])]
  dsimp only
  rw [hdis]
  refine ⟨rfl, ?_⟩
  dsimp only
  simp [clickCount_cons, clickCount_append, clickCount_maybe_rotate, clickCount_nil]

/-- An attempt environment identical to the all-success one, except the
download control reports disabled with a daily-limit phrase in the page
text. -/
def envDaily : AttemptEnv :=
  { envOk with isDisabled := true,
               pageTextDisabled := "You have reached your daily limit" }

/-- Witness for C4 at a concrete disabled-with-daily-limit run. -/
theorem C4_no_click_on_daily_limit_witness :
    (processAttemptBody wAllOk envDaily "img.jpeg" "out" pst0).1 = .error hitLimitMsg
    ∧ clickCount (processAttemptBody wAllOk envDaily "img.jpeg" "out" pst0).2.2 = 0 :=
  C4_no_click_on_daily_limit wAllOk envDaily "img.jpeg" "out" pst0
    (by decide) (by decide) (by decide) (by decide) (by decide) (by decide)

/-! ## C6: force_reconnect on daily-limit classification -/

theorem rotateFRs_append (a b : List PEvent) :
    rotateFRs (a ++ b) = rotateFRs a ++ rotateFRs b := by
  simp [rotateFRs]

/-- C6 (amended): the OUTER retry handler of `process_image` rotates with
`force_reconnect = outer_force_reconnect msg retries` whenever the message
matches a rate-limit indicator; that flag is true whenever the message
mentions "daily", and false on a burst-only message ("daily" and "tomorrow"
absent) at the first retry.  (The daily-limit paths inside the attempt
itself — the disabled-control path and the failed-download path — rotate
with `force_reconnect = false`, so the claim as stated does not hold for
them; see the counterexample.) -/
theorem C6_force_reconnect (w : World) (msg : String) (retries : Nat) (st : PState)
    (hrate : is_rate_limited msg = true) :
    rotateFRs (handle_attempt_error w msg retries st).2
        = [outer_force_reconnect msg retries]
    ∧ (strContains (strLower msg) "daily" = true →
        outer_force_reconnect msg retries = true)
    ∧ (strContains (strLower msg) "daily" = false →
        strContains (strLower msg) "tomorrow" = false →
        retries ≤ 1 →
        outer_force_reconnect msg retries = false) := by
  refine ⟨?_, ?_, ?_⟩
  · unfold handle_attempt_error
    rw [if_pos hrate]
    by_cases hr : (maybe_rotate_ip w true (outer_force_reconnect msg retries) st).1 = true
    · rw [if_pos hr]
      dsimp only
      rw [rotateFRs_append, rotateFRs_maybe_rotate_forced]
      rfl
    · rw [if_neg hr]
      dsimp only
      rw [rotateFRs_append, rotateFRs_maybe_rotate_forced]
      rfl
  · intro hd
    simp [outer_force_reconnect, hd]
  · intro hd ht hle
    simp [outer_force_reconnect, hd, ht]
    omega

/-- Witness for C6 at a concrete daily-limit message on the first retry. -/
theorem C6_force_reconnect_witness :
    rotateFRs (handle_attempt_error wAllOk "Daily limit detected: daily limit" 1 pst0).2
        = [outer_force_reconnect "Daily limit detected: daily limit" 1]
    ∧ (strContains (strLower "Daily limit detected: daily limit") "daily" = true →
        outer_force_reconnect "Daily limit detected: daily limit" 1 = true)
    ∧ (strContains (strLower "Daily limit detected: daily limit") "daily" = false →
        strContains (strLower "Daily limit detected: daily limit") "tomorrow" = false →
        1 ≤ 1 →
        outer_force_reconnect "Daily limit detected: daily limit" 1 = false) :=
  C6_force_reconnect wAllOk "Daily limit detected: daily limit" 1 pst0 (by decide)

/-- Counterexample to C6 as stated: the disabled-control path detects the
daily-limit phrase and immediately rotates, but with `force_reconnect =
false` — the rotation following this daily-limit classification is NOT
invoked with force_reconnect=true. -/
theorem C6_counterexample :
    strContains (strLower envDaily.pageTextDisabled) "daily limit" = true
    ∧ (processAttemptBody wAllOk envDaily "img.jpeg" "out" pst0).1 = .error hitLimitMsg
    ∧ rotateFRs (processAttemptBody wAllOk envDaily "img.jpeg" "out" pst0).2.2 = [false] := by
  refine ⟨by decide, rfl, by decide⟩

/-! ## C9: saved format vs extension, and the missing emptiness check -/

/-- The extension characters of a path: the maximal dot-free, slash-free
suffix of its character list. -/
def extChars (p : String) : List Char :=
  (p.toList.reverse.takeWhile (fun c => c ≠ '.' && c ≠ '/')).reverse

theorem takeWhile_append_of_all {α : Type} (p : α → Bool) :
    ∀ (l1 l2 : List α), (∀ c ∈ l1, p c = true) →
      (l1 ++ l2).takeWhile p = l1 ++ l2.takeWhile p := by
  intro l1
  induction l1 with
  | nil => intro l2 h; rfl
  | cons a l ih =>
    intro l2 h
    rw [List.cons_append, List.takeWhile_cons, h a (List.mem_cons_self a l)]
    rw [if_pos rfl, ih l2 (fun c hc => h c (List.mem_cons_of_mem a hc))]
    rfl

theorem extChars_append (base e : String)
    (he : ∀ c ∈ e.toList, (c ≠ '.' && c ≠ '/') = true) :
    extChars (base ++ "." ++ e) = e.toList := by
  unfold extChars
  have hdata : (base ++ "." ++ e).toList = base.toList ++ '.' :: e.toList := by
    show (base ++ "." ++ e).data = base.data ++ '.' :: e.data
    rw [String.data_append, String.data_append]
    simp [List.append_assoc]
  rw [hdata, List.reverse_append, List.reverse_cons, List.append_assoc]
  rw [takeWhile_append_of_all _ _ _ (fun c hc => he c (List.mem_reverse.mp hc))]
  simp [List.takeWhile_cons]

theorem fsLookup_fsWrite (fs : List (String × Nat)) (p : String) (n : Nat) :
    fsLookup (fsWrite fs p n) p = some n := by
  simp [fsLookup, fsWrite]

/-- C9 (amended): `_detect_image_format_and_save` persists under the base
path with the detected format, lowercased, as the new extension (so the
extension matches the detected format); when PIL opened the bytes but
reported no format it defaults to ".jpeg"; when PIL failed to identify the
bytes it keeps the given output path (default extension ".jpg"); and in
every case the file is written with exactly the downloaded byte count — the
function performs NO emptiness check and deletes nothing, so a zero-byte
artifact is persisted and returned. -/
theorem C9_format_extension (pil : Option (Option String)) (size : Nat)
    (output_path : String) (fs : List (String × Nat)) :
    (∀ f, pil = some (some f) →
        (detect_image_format_and_save pil size output_path fs).1
            = (splitext output_path).1 ++ "." ++ strLower f
        ∧ ((∀ c ∈ (strLower f).toList, (c ≠ '.' && c ≠ '/') = true) →
            extChars (detect_image_format_and_save pil size output_path fs).1
              = (strLower f).toList))
    ∧ (pil = some none →
        (detect_image_format_and_save pil size output_path fs).1
          = (splitext output_path).1 ++ "." ++ "jpeg")
    ∧ (pil = none →
        (detect_image_format_and_save pil size output_path fs).1 = output_path)
    ∧ fsLookup (detect_image_format_and_save pil size output_path fs).2
        (detect_image_format_and_save pil size output_path fs).1 = some size := by
  refine ⟨?_, ?_, ?_, ?_⟩
  · intro f hf
    subst hf
    exact ⟨rfl, fun hc => extChars_append (splitext output_path).1 (strLower f) hc⟩
  · intro hf
    subst hf
    rfl
  · intro hf
    subst hf
    rfl
  · cases pil with
    | none => exact fsLookup_fsWrite fs output_path size
    | some fmtOpt => cases fmtOpt <;> exact fsLookup_fsWrite fs _ size

/-- Witness for C9 at a PNG detection over a 1024-byte download. -/
theorem C9_format_extension_witness :
    (detect_image_format_and_save (some (some "PNG")) 1024
        "out/img_dewatermarked.jpg" []).1
      = (splitext "out/img_dewatermarked.jpg").1 ++ "." ++ strLower "PNG"
    ∧ extChars (detect_image_format_and_save (some (some "PNG")) 1024
        "out/img_dewatermarked.jpg" []).1 = (strLower "PNG").toList
    ∧ fsLookup (detect_image_format_and_save (some (some "PNG")) 1024
          "out/img_dewatermarked.jpg" []).2
        (detect_image_format_and_save (some (some "PNG")) 1024
          "out/img_dewatermarked.jpg" []).1 = some 1024 :=
  ⟨((C9_format_extension (some (some "PNG")) 1024 "out/img_dewatermarked.jpg" []).1
      "PNG" rfl).1,
   ((C9_format_extension (some (some "PNG")) 1024 "out/img_dewatermarked.jpg" []).1
      "PNG" rfl).2 (by decide),
   (C9_format_extension (some (some "PNG")) 1024 "out/img_dewatermarked.jpg" []).2.2.2⟩

/-- An attempt environment whose captured download reports no failure but
delivers zero bytes that PIL cannot identify. -/
def envEmptyDl : AttemptEnv := { envOk with downloadResult := .ok ⟨none, none, 0⟩ }

/-- Counterexample to C9 as stated: a captured zero-byte download with
unidentifiable content is persisted as a zero-byte artifact whose path is
returned to the caller — the zero-byte file is neither rejected nor
deleted. -/
theorem C9_counterexample :
    (process_image wAllOk (fun _ => envEmptyDl) "img.jpeg" "out" pst0).1
      = some "out/img_dewatermarked.jpg"
    ∧ fsLookup (process_image wAllOk (fun _ => envEmptyDl) "img.jpeg" "out" pst0).2.1.fs
        "out/img_dewatermarked.jpg" = some 0 := by
  refine ⟨by decide, by decide⟩

end Scrape
